import Mathlib

/-!
# triangle_vulkan: the bootstrap sequence of `main`

A shallow embedding of `src/triangle_vulkan.cc`.  The program is one function, `main`, whose
behaviour is the sequence of calls it makes into GLFW and Vulkan, the lines it writes, and
the status it returns.  The two libraries are external, so their answers are taken from an
`Env`; `main` is a function from an `Env` to the instrumented run (`Run`).

C++ exceptions are modelled by `Thrown`; a computation inside the `try` block is a `Step`,
carrying the events performed so far and either a value or the exception in flight.
-/

namespace TriangleVulkan

/-- The two streams `main` writes to (`std::cout`, `std::cerr`). -/
inductive Stream
  | cout
  | cerr
  deriving DecidableEq, Repr

/-- Exceptions that can be in flight inside the `try` block of `main`, by the `catch` clause
(lines 106-118) that receives them. -/
inductive Thrown
  | tvkException (message : String)
  | vkSystemError (what : String)
  | stdException (what : String)
  | unknown
  deriving DecidableEq, Repr

/-- Outcome of a GLFW call made while the error callback of lines 30-32 is installed: GLFW
reports an error from inside the call (the callback runs with `description`), or the call
returns `value`. -/
inductive Glfw (α : Type)
  | raise (description : String)
  | ret (value : α)
  deriving DecidableEq, Repr

/-- Outcome of a throwing `vulkan.hpp` query: it returns `value`, or throws a
`vk::SystemError`, another `std::exception`, or something else. -/
inductive Vk (α : Type)
  | systemError (what : String)
  | stdError (what : String)
  | otherError
  | ret (value : α)
  deriving DecidableEq, Repr

/-- The GLFW constants named on lines 35-36. -/
inductive GlfwConst
  | GLFW_CLIENT_API
  | GLFW_NO_API
  | GLFW_DECORATED
  | GLFW_FALSE
  deriving DecidableEq, Repr

/-- Arguments of `vk::ApplicationInfo` (line 80). -/
structure ApplicationInfo where
  applicationName : String
  applicationVersion : Nat
  engineName : String
  engineVersion : Nat
  apiVersion : Nat
  deriving DecidableEq, Repr

/-- Value of `VK_API_VERSION_1_3`, that is `VK_MAKE_API_VERSION(0, 1, 3, 0)`. -/
def VK_API_VERSION_1_3 : Nat := 1 * 2 ^ 22 + 3 * 2 ^ 12

/-- Status returned by `main`. -/
inductive ExitStatus
  | EXIT_SUCCESS
  | EXIT_FAILURE
  deriving DecidableEq, Repr

/-- One observable action of `main`: a library call with its arguments and its outcome, or a
line written to a stream.  Pointers and handles are numbers, `0` being `nullptr`;
`VkResult` codes are integers, `0` being success. -/
inductive Event
  | glfwInit (result : Bool)
  | glfwSetErrorCallback
  | glfwWindowHint (hint value : GlfwConst) (outcome : Glfw Unit)
  | glfwCreateWindow (width height : Nat) (title : String) (outcome : Glfw Nat)
  | enumerateInstanceLayerProperties (outcome : Vk (List String))
  | enumerateInstanceExtensionProperties (outcome : Vk (List String))
  | glfwGetRequiredInstanceExtensions (outcome : Glfw (List String))
  | createInstance (appInfo : ApplicationInfo) (enabledLayers extensions : List String)
      (result : Int) (inst : Nat)
  | glfwCreateWindowSurface (inst window : Nat) (outcome : Glfw (Int × Nat))
  | glfwWindowShouldClose (window : Nat) (outcome : Glfw Bool)
  | glfwPollEvents (outcome : Glfw Unit)
  | destroySurfaceKHR (inst surface : Nat)
  | instanceDestroy (inst : Nat)
  | glfwDestroyWindow (window : Nat) (outcome : Glfw Unit)
  | glfwTerminate (outcome : Glfw Unit)
  | write (stream : Stream) (line : String)
  deriving DecidableEq, Repr

/-- What the two libraries answer during one run of `main`. -/
structure Env where
  /-- Return value of `glfwInit()`, as a truth value. -/
  glfwInit : Bool
  /-- Outcome of `glfwWindowHint(hint, ...)`. -/
  glfwWindowHint : GlfwConst → Glfw Unit
  /-- Outcome of `glfwCreateWindow`: the window pointer, `0` for `nullptr`. -/
  glfwCreateWindow : Glfw Nat
  /-- Outcome of `vk::enumerateInstanceLayerProperties()`: the `layerName` of each entry. -/
  enumerateInstanceLayerProperties : Vk (List String)
  /-- Iteration order of the `std::unordered_set` built from the given names (line 54). -/
  unorderedSetOrder : List String → List String
  /-- Outcome of `vk::enumerateInstanceExtensionProperties()`: the `extensionName`s. -/
  enumerateInstanceExtensionProperties : Vk (List String)
  /-- Outcome of `glfwGetRequiredInstanceExtensions`: the `glfwExtensionCount` names. -/
  glfwGetRequiredInstanceExtensions : Glfw (List String)
  /-- Result code of `vk::createInstance` and the handle it stores in `instance`. -/
  createInstance : Int × Nat
  /-- Outcome of `glfwCreateWindowSurface`: result code and the handle stored. -/
  glfwCreateWindowSurface : Glfw (Int × Nat)
  /-- Outcome of the `glfwWindowShouldClose(window)` call of loop iteration `i`. -/
  glfwWindowShouldClose : Nat → Glfw Bool
  /-- Outcome of the `glfwPollEvents()` call of loop iteration `i`. -/
  glfwPollEvents : Nat → Glfw Unit
  /-- Outcome of `glfwDestroyWindow(window)`. -/
  glfwDestroyWindow : Glfw Unit
  /-- Outcome of `glfwTerminate()`. -/
  glfwTerminate : Glfw Unit

/-- A computation inside the `try` block: the events it performed, in order, and its value or
the exception it ended with. -/
structure Step (α : Type) where
  trace : List Event
  result : Except Thrown α

/-- A computation that does nothing and yields `a`. -/
def Step.ret {α : Type} (a : α) : Step α := ⟨[], .ok a⟩

/-- Sequencing: when the first computation throws, the second is not run. -/
def Step.andThen {α β : Type} (s : Step α) (f : α → Step β) : Step β :=
  match s.result with
  | .ok a => ⟨s.trace ++ (f a).trace, (f a).result⟩
  | .error t => ⟨s.trace, .error t⟩

instance : Monad Step where
  pure := Step.ret
  bind := Step.andThen

/-- The statement `throw t`. -/
def raise {α : Type} (t : Thrown) : Step α := ⟨[], .error t⟩

/-- A call that cannot fail by an exception: it is recorded and its value returned. -/
def plainCall {α : Type} (event : Event) (value : α) : Step α := ⟨[event], .ok value⟩

/-- A GLFW call made after line 30.  When GLFW reports an error during the call, the callback
`[](int error, const char *description) { throw tvk::Exception{description}; }` runs inside
it and the exception leaves the call. -/
def glfwCall {α : Type} (event : Glfw α → Event) (outcome : Glfw α) : Step α :=
  match outcome with
  | .raise description => ⟨[event outcome], .error (.tvkException description)⟩
  | .ret value => ⟨[event outcome], .ok value⟩

/-- A throwing `vulkan.hpp` query. -/
def vkCall {α : Type} (event : Vk α → Event) (outcome : Vk α) : Step α :=
  match outcome with
  | .systemError what => ⟨[event outcome], .error (.vkSystemError what)⟩
  | .stdError what => ⟨[event outcome], .error (.stdException what)⟩
  | .otherError => ⟨[event outcome], .error .unknown⟩
  | .ret value => ⟨[event outcome], .ok value⟩

/-- The statement `stream << line << std::endl`. -/
def writeLine (stream : Stream) (line : String) : Step Unit :=
  plainCall (.write stream line) ()

/-- The loops of lines 54-55 and 68-69: one line `- name` on `std::cout` per name. -/
def printNames : List String → Step Unit
  | [] => pure ()
  | name :: rest => do
    writeLine .cout ("- " ++ name)
    printNames rest

/-- The list `validationLayers` of lines 44-45. -/
def validationLayers : List String := ["VK_LAYER_KHRONOS_validation"]

/-- The loop of lines 58-63 over the remaining requested layers: a layer contained in
`availableLayerNames` is pushed onto `enabledLayers`, any other gets a line on `std::cerr`. -/
def negotiateLayers (availableLayerNames : List String) :
    List String → List String → Step (List String)
  | [], enabledLayers => pure enabledLayers
  | layer :: rest, enabledLayers =>
    if layer ∈ availableLayerNames then
      negotiateLayers availableLayerNames rest (enabledLayers ++ [layer])
    else do
      writeLine .cerr ("Validation layer not available: " ++ layer)
      negotiateLayers availableLayerNames rest enabledLayers

/-- The loop of lines 97-99, `for (size_t i = 0; (i < 128) && !glfwWindowShouldClose(window);
++i) glfwPollEvents();`, from iteration `i` on.  The first argument bounds the number of
iterations still to run; `128` is enough when starting at `i = 0`. -/
def windowCycle (env : Env) (window : Nat) : Nat → Nat → Step Unit
  | 0, _ => pure ()
  | fuel + 1, i =>
    if i < 128 then do
      let shouldClose ←
        glfwCall (Event.glfwWindowShouldClose window) (env.glfwWindowShouldClose i)
      if shouldClose then
        pure ()
      else do
        glfwCall Event.glfwPollEvents (env.glfwPollEvents i)
        windowCycle env window fuel (i + 1)
    else
      pure ()

/-- The application info of line 80. -/
def appInfo : ApplicationInfo := ⟨"", 1, "No Engine", 1, VK_API_VERSION_1_3⟩

/-- Lines 26-28, `// Init GLFW, handle errors`. -/
def initGlfw (env : Env) : Step Unit := do
  let initialised ← plainCall (.glfwInit env.glfwInit) env.glfwInit
  if !initialised then
    raise (.tvkException "Failed to initialize GLFW")

/-- Lines 38-41, `// Create window`.  Yields `window`. -/
def createWindow (env : Env) : Step Nat := do
  let window ← glfwCall (Event.glfwCreateWindow 512 512 "") env.glfwCreateWindow
  if window = 0 then
    raise (.tvkException "Failed to create GLFW window")
  pure window

/-- Lines 43-63, `// Check available Vulkan layers`.  Yields `enabledLayers`.  The set
`availableLayerNames` is kept as the list of inserted names: only membership and the
iteration order (taken from the environment) are used. -/
def checkLayers (env : Env) : Step (List String) := do
  let availableLayers ←
    vkCall Event.enumerateInstanceLayerProperties env.enumerateInstanceLayerProperties
  let availableLayerNames := availableLayers
  writeLine .cout "Available layers"
  printNames (env.unorderedSetOrder availableLayerNames)
  negotiateLayers availableLayerNames validationLayers []

/-- Lines 65-69, `// Query instance extensions`. -/
def queryExtensions (env : Env) : Step Unit := do
  writeLine .cout "Available extensions"
  let availableExtensions ←
    vkCall Event.enumerateInstanceExtensionProperties env.enumerateInstanceExtensionProperties
  printNames availableExtensions

/-- Lines 71-77, `// Add required extensions`.  Yields `extensions`. -/
def addRequiredExtensions (env : Env) : Step (List String) := do
  let extensions : List String := []
  let glfwExtensions ←
    glfwCall Event.glfwGetRequiredInstanceExtensions env.glfwGetRequiredInstanceExtensions
  pure (extensions ++ glfwExtensions)

/-- Lines 79-87, `// Create Vulkan instance`.  Yields `instance`. -/
def createVulkanInstance (env : Env) (enabledLayers extensions : List String) : Step Nat := do
  -- line 80: `vk::ApplicationInfo appInfo("", 1, "No Engine", 1, VK_API_VERSION_1_3)`
  let created ← plainCall
    (.createInstance appInfo enabledLayers extensions env.createInstance.1 env.createInstance.2)
    env.createInstance
  if created.1 ≠ 0 then
    raise (.tvkException "Failed to create Vulkan instance")
  pure created.2

/-- Lines 89-94, `// Create window surface`.  Yields `surface`. -/
def createSurface (env : Env) (inst window : Nat) : Step Nat := do
  let bound ←
    glfwCall (Event.glfwCreateWindowSurface inst window) env.glfwCreateWindowSurface
  if bound.1 ≠ 0 then
    raise (.tvkException "Failed to create window surface")
  pure bound.2

/-- Lines 101-105, `// Cleanup`. -/
def cleanup (env : Env) (window inst surface : Nat) : Step Unit := do
  plainCall (.destroySurfaceKHR inst surface) ()
  plainCall (.instanceDestroy inst) ()
  glfwCall (Event.glfwDestroyWindow window) env.glfwDestroyWindow
  glfwCall Event.glfwTerminate env.glfwTerminate

/-- Lines 26-99: the `try` block up to and including the window cycle.  Yields the window,
the instance and the surface. -/
def setup (env : Env) : Step (Nat × Nat × Nat) := do
  initGlfw env
  -- lines 30-32
  plainCall .glfwSetErrorCallback ()
  -- lines 34-36
  glfwCall (Event.glfwWindowHint .GLFW_CLIENT_API .GLFW_NO_API)
    (env.glfwWindowHint .GLFW_CLIENT_API)
  glfwCall (Event.glfwWindowHint .GLFW_DECORATED .GLFW_FALSE)
    (env.glfwWindowHint .GLFW_DECORATED)
  let window ← createWindow env
  let enabledLayers ← checkLayers env
  queryExtensions env
  let extensions ← addRequiredExtensions env
  let inst ← createVulkanInstance env enabledLayers extensions
  let surface ← createSurface env inst window
  -- lines 96-99
  windowCycle env window 128 0
  pure (window, inst, surface)

/-- The `try` block, lines 25-105. -/
def tryBlock (env : Env) : Step Unit := do
  let (window, inst, surface) ← setup env
  cleanup env window inst surface

/-- The instrumented result of one run: every call and written line in order, and the status
returned. -/
structure Run where
  trace : List Event
  status : ExitStatus
  deriving DecidableEq, Repr

/-- The line written by the `catch` clause that receives `t` (lines 106-117). -/
def diagnostic : Thrown → Event
  | .tvkException message => .write .cout ("Exception: " ++ message)
  | .vkSystemError what => .write .cerr ("vk::SystemError: " ++ what)
  | .stdException what => .write .cerr ("std::exception: " ++ what)
  | .unknown => .write .cerr "unknown error"

/-- The function `main`, lines 24-121. -/
def main (env : Env) : Run :=
  match (tryBlock env).result with
  | .ok _ => ⟨(tryBlock env).trace, .EXIT_SUCCESS⟩
  | .error t => ⟨(tryBlock env).trace ++ [diagnostic t], .EXIT_FAILURE⟩

/-! ## Vocabulary of the properties -/

/-- The exception a call's outcome leads to, if any: the failure taxonomy of the program.
GLFW error reports become a `tvk::Exception` carrying the description; a false `glfwInit`,
a null window and a non-success result code become a `tvk::Exception` with a fixed
message; a throwing driver query throws what it throws. -/
def Event.failure : Event → Option Thrown
  | .glfwInit false => some (.tvkException "Failed to initialize GLFW")
  | .glfwWindowHint _ _ (.raise d) => some (.tvkException d)
  | .glfwCreateWindow _ _ _ (.raise d) => some (.tvkException d)
  | .glfwCreateWindow _ _ _ (.ret 0) => some (.tvkException "Failed to create GLFW window")
  | .enumerateInstanceLayerProperties (.systemError w) => some (.vkSystemError w)
  | .enumerateInstanceLayerProperties (.stdError w) => some (.stdException w)
  | .enumerateInstanceLayerProperties .otherError => some .unknown
  | .enumerateInstanceExtensionProperties (.systemError w) => some (.vkSystemError w)
  | .enumerateInstanceExtensionProperties (.stdError w) => some (.stdException w)
  | .enumerateInstanceExtensionProperties .otherError => some .unknown
  | .glfwGetRequiredInstanceExtensions (.raise d) => some (.tvkException d)
  | .createInstance _ _ _ result _ =>
    if result = 0 then none else some (.tvkException "Failed to create Vulkan instance")
  | .glfwCreateWindowSurface _ _ (.raise d) => some (.tvkException d)
  | .glfwCreateWindowSurface _ _ (.ret (result, _)) =>
    if result = 0 then none else some (.tvkException "Failed to create window surface")
  | .glfwWindowShouldClose _ (.raise d) => some (.tvkException d)
  | .glfwPollEvents (.raise d) => some (.tvkException d)
  | .glfwDestroyWindow _ (.raise d) => some (.tvkException d)
  | .glfwTerminate (.raise d) => some (.tvkException d)
  | _ => none

/-- The description of the error GLFW reported during the call, for a GLFW call made after
the callback was registered. -/
def Event.raised : Event → Option String
  | .glfwWindowHint _ _ (.raise d) => some d
  | .glfwCreateWindow _ _ _ (.raise d) => some d
  | .glfwGetRequiredInstanceExtensions (.raise d) => some d
  | .glfwCreateWindowSurface _ _ (.raise d) => some d
  | .glfwWindowShouldClose _ (.raise d) => some d
  | .glfwPollEvents (.raise d) => some d
  | .glfwDestroyWindow _ (.raise d) => some d
  | .glfwTerminate (.raise d) => some d
  | _ => none

/-- The four destroy calls. -/
def Event.isTeardown : Event → Bool
  | .destroySurfaceKHR _ _ => true
  | .instanceDestroy _ => true
  | .glfwDestroyWindow _ _ => true
  | .glfwTerminate _ => true
  | _ => false

/-- Position of a call among the setup steps: subsystem init 0, window creation 1, layer
query 2, extension query 3, connection creation 4, surface creation 5, event loop 6. -/
def Event.setupStep : Event → Option Nat
  | .glfwInit _ => some 0
  | .glfwCreateWindow _ _ _ _ => some 1
  | .enumerateInstanceLayerProperties _ => some 2
  | .enumerateInstanceExtensionProperties _ => some 3
  | .createInstance _ _ _ _ _ => some 4
  | .glfwCreateWindowSurface _ _ _ => some 5
  | .glfwWindowShouldClose _ _ => some 6
  | .glfwPollEvents _ => some 6
  | _ => none

/-- The setup steps of a trace, in order of invocation. -/
def stepsOf (trace : List Event) : List Nat := trace.filterMap Event.setupStep

/-- The setup steps of a run in which nothing fails, from position `start`, `count` of them:
`0, 1, 2, 3, 4, 5` and then the event loop's `6, 6, ...`. -/
def stepSequence (start count : Nat) : List Nat :=
  (List.range' start count).map (fun i => min i 6)

/-- A `glfwTerminate` call. -/
def Event.isTerminate : Event → Bool
  | .glfwTerminate _ => true
  | _ => false

/-- A `glfwPollEvents` call. -/
def Event.isPoll : Event → Bool
  | .glfwPollEvents _ => true
  | _ => false

/-- A `glfwWindowShouldClose` call. -/
def Event.isCloseCheck : Event → Bool
  | .glfwWindowShouldClose _ _ => true
  | _ => false

/-- A call made by the window cycle of lines 97-99. -/
def Event.isCycleCall (e : Event) : Bool := e.isCloseCheck || e.isPoll

/-- The warning line of line 62 for `layer`. -/
def layerWarning (layer : String) : Event :=
  .write .cerr ("Validation layer not available: " ++ layer)

/-- A line written by line 62. -/
def Event.isLayerWarning : Event → Bool
  | .write .cerr line => "Validation layer not available: ".data.isPrefixOf line.data
  | _ => false

/-- The openings of the lines written by the four `catch` clauses. -/
def diagnosticOpenings : List String :=
  ["Exception: ", "vk::SystemError: ", "std::exception: ", "unknown error"]

/-- A written line that opens like one of the `catch` clauses' lines. -/
def Event.isDiagnostic : Event → Bool
  | .write _ line => diagnosticOpenings.any (fun opening => opening.data.isPrefixOf line.data)
  | _ => false

/-- The line of lines 55 and 69 for `name`. -/
def nameLine (name : String) : Event :=
  .write .cout ("- " ++ name)

/-- The requested layers that are among `names`, in the order requested. -/
def enabledOf (names : List String) : List String :=
  validationLayers.filter (fun layer => decide (layer ∈ names))

/-- The requested layers that are not among `names`, in the order requested. -/
def missingOf (names : List String) : List String :=
  validationLayers.filter (fun layer => decide (layer ∉ names))

/-- What a throwing driver query throws, if it throws. -/
def Vk.thrown {α : Type} : Vk α → Option Thrown
  | .systemError what => some (.vkSystemError what)
  | .stdError what => some (.stdException what)
  | .otherError => some .unknown
  | .ret _ => none

/-- The subsystem is initialised and both window hints are accepted. -/
def Env.hinted (env : Env) : Prop :=
  env.glfwInit = true ∧ env.glfwWindowHint .GLFW_CLIENT_API = .ret () ∧
    env.glfwWindowHint .GLFW_DECORATED = .ret ()

/-- Moreover the window `window` is created and the layer query reports `names`. -/
def Env.layersChecked (env : Env) (window : Nat) (names : List String) : Prop :=
  env.hinted ∧ env.glfwCreateWindow = .ret window ∧ window ≠ 0 ∧
    env.enumerateInstanceLayerProperties = .ret names

/-- Moreover the extension query reports `available` and GLFW requires `required`. -/
def Env.extensionsKnown (env : Env) (window : Nat) (names available required : List String) :
    Prop :=
  env.layersChecked window names ∧ env.enumerateInstanceExtensionProperties = .ret available ∧
    env.glfwGetRequiredInstanceExtensions = .ret required

/-- Moreover the instance `inst` and the surface `surface` are created: every call before
the window cycle succeeds. -/
def Env.surfaceBound (env : Env) (window : Nat) (names available required : List String)
    (inst surface : Nat) : Prop :=
  env.extensionsKnown window names available required ∧ env.createInstance = (0, inst) ∧
    env.glfwCreateWindowSurface = .ret (0, surface)

instance (env : Env) : Decidable env.hinted := by
  unfold Env.hinted
  infer_instance

instance (env : Env) (window : Nat) (names : List String) :
    Decidable (env.layersChecked window names) := by
  unfold Env.layersChecked
  infer_instance

instance (env : Env) (window : Nat) (names available required : List String) :
    Decidable (env.extensionsKnown window names available required) := by
  unfold Env.extensionsKnown
  infer_instance

instance (env : Env) (window : Nat) (names available required : List String)
    (inst surface : Nat) :
    Decidable (env.surfaceBound window names available required inst surface) := by
  unfold Env.surfaceBound
  infer_instance

/-- The events up to the second window hint, all succeeding. -/
def hintedTrace : List Event :=
  [.glfwInit true, .glfwSetErrorCallback,
    .glfwWindowHint .GLFW_CLIENT_API .GLFW_NO_API (.ret ()),
    .glfwWindowHint .GLFW_DECORATED .GLFW_FALSE (.ret ())]

/-- The events up to the end of the layer negotiation, when the layer query reports `names`. -/
def layersCheckedTrace (env : Env) (window : Nat) (names : List String) : List Event :=
  hintedTrace ++ [.glfwCreateWindow 512 512 "" (.ret window),
      .enumerateInstanceLayerProperties (.ret names), .write .cout "Available layers"]
    ++ (env.unorderedSetOrder names).map nameLine ++ (missingOf names).map layerWarning

/-- The events up to the list of available extensions. -/
def extensionsListedTrace (env : Env) (window : Nat) (names available : List String) :
    List Event :=
  layersCheckedTrace env window names
    ++ [.write .cout "Available extensions", .enumerateInstanceExtensionProperties (.ret available)]
    ++ available.map nameLine

/-- The events up to the creation of the surface, all succeeding. -/
def surfaceBoundTrace (env : Env) (window : Nat) (names available required : List String)
    (inst surface : Nat) : List Event :=
  extensionsListedTrace env window names available
    ++ [.glfwGetRequiredInstanceExtensions (.ret required),
      .createInstance appInfo (enabledOf names) required 0 inst,
      .glfwCreateWindowSurface inst window (.ret (0, surface))]

/-- The possible runs of `main`, one case per place where the sequence can end. -/
inductive RunShape (env : Env) : Run → Prop
  | initFails (h : env.glfwInit = false) :
    RunShape env ⟨[.glfwInit false, .write .cout "Exception: Failed to initialize GLFW"],
      .EXIT_FAILURE⟩
  | clientApiHintRaises (d : String) (h : env.glfwInit = true)
      (hr : env.glfwWindowHint .GLFW_CLIENT_API = .raise d) :
    RunShape env ⟨[.glfwInit true, .glfwSetErrorCallback,
      .glfwWindowHint .GLFW_CLIENT_API .GLFW_NO_API (.raise d),
      .write .cout ("Exception: " ++ d)], .EXIT_FAILURE⟩
  | decoratedHintRaises (d : String) (h : env.glfwInit = true)
      (h1 : env.glfwWindowHint .GLFW_CLIENT_API = .ret ())
      (hr : env.glfwWindowHint .GLFW_DECORATED = .raise d) :
    RunShape env ⟨[.glfwInit true, .glfwSetErrorCallback,
      .glfwWindowHint .GLFW_CLIENT_API .GLFW_NO_API (.ret ()),
      .glfwWindowHint .GLFW_DECORATED .GLFW_FALSE (.raise d),
      .write .cout ("Exception: " ++ d)], .EXIT_FAILURE⟩
  | createWindowRaises (d : String) (h : env.hinted) (hr : env.glfwCreateWindow = .raise d) :
    RunShape env ⟨hintedTrace ++ [.glfwCreateWindow 512 512 "" (.raise d),
      .write .cout ("Exception: " ++ d)], .EXIT_FAILURE⟩
  | createWindowNull (h : env.hinted) (hr : env.glfwCreateWindow = .ret 0) :
    RunShape env ⟨hintedTrace ++ [.glfwCreateWindow 512 512 "" (.ret 0),
      .write .cout "Exception: Failed to create GLFW window"], .EXIT_FAILURE⟩
  | layerQueryThrows (window : Nat) (t : Thrown) (h : env.hinted)
      (hw : env.glfwCreateWindow = .ret window) (hw0 : window ≠ 0)
      (hr : env.enumerateInstanceLayerProperties.thrown = some t) :
    RunShape env ⟨hintedTrace ++ [.glfwCreateWindow 512 512 "" (.ret window),
      .enumerateInstanceLayerProperties env.enumerateInstanceLayerProperties,
      diagnostic t], .EXIT_FAILURE⟩
  | extensionQueryThrows (window : Nat) (names : List String) (t : Thrown)
      (h : env.layersChecked window names)
      (hr : env.enumerateInstanceExtensionProperties.thrown = some t) :
    RunShape env ⟨layersCheckedTrace env window names ++ [.write .cout "Available extensions",
      .enumerateInstanceExtensionProperties env.enumerateInstanceExtensionProperties,
      diagnostic t], .EXIT_FAILURE⟩
  | requiredExtensionsRaises (window : Nat) (names available : List String) (d : String)
      (h : env.layersChecked window names)
      (ha : env.enumerateInstanceExtensionProperties = .ret available)
      (hr : env.glfwGetRequiredInstanceExtensions = .raise d) :
    RunShape env ⟨extensionsListedTrace env window names available
      ++ [.glfwGetRequiredInstanceExtensions (.raise d), .write .cout ("Exception: " ++ d)],
      .EXIT_FAILURE⟩
  | createInstanceFails (window : Nat) (names available required : List String)
      (h : env.extensionsKnown window names available required)
      (hr : env.createInstance.1 ≠ 0) :
    RunShape env ⟨extensionsListedTrace env window names available
      ++ [.glfwGetRequiredInstanceExtensions (.ret required),
        .createInstance appInfo (enabledOf names) required env.createInstance.1
          env.createInstance.2,
        .write .cout "Exception: Failed to create Vulkan instance"], .EXIT_FAILURE⟩
  | createSurfaceRaises (window : Nat) (names available required : List String) (d : String)
      (h : env.extensionsKnown window names available required)
      (hi : env.createInstance.1 = 0) (hr : env.glfwCreateWindowSurface = .raise d) :
    RunShape env ⟨extensionsListedTrace env window names available
      ++ [.glfwGetRequiredInstanceExtensions (.ret required),
        .createInstance appInfo (enabledOf names) required 0 env.createInstance.2,
        .glfwCreateWindowSurface env.createInstance.2 window (.raise d),
        .write .cout ("Exception: " ++ d)], .EXIT_FAILURE⟩
  | createSurfaceFails (window : Nat) (names available required : List String)
      (result : Int) (surface : Nat)
      (h : env.extensionsKnown window names available required)
      (hi : env.createInstance.1 = 0)
      (hs : env.glfwCreateWindowSurface = .ret (result, surface)) (hr : result ≠ 0) :
    RunShape env ⟨extensionsListedTrace env window names available
      ++ [.glfwGetRequiredInstanceExtensions (.ret required),
        .createInstance appInfo (enabledOf names) required 0 env.createInstance.2,
        .glfwCreateWindowSurface env.createInstance.2 window (.ret (result, surface)),
        .write .cout "Exception: Failed to create window surface"], .EXIT_FAILURE⟩
  | windowCycleRaises (window : Nat) (names available required : List String)
      (inst surface : Nat) (t : Thrown)
      (h : env.surfaceBound window names available required inst surface)
      (hr : (windowCycle env window 128 0).result = .error t) :
    RunShape env ⟨surfaceBoundTrace env window names available required inst surface
      ++ (windowCycle env window 128 0).trace ++ [diagnostic t], .EXIT_FAILURE⟩
  | destroyWindowRaises (window : Nat) (names available required : List String)
      (inst surface : Nat) (d : String)
      (h : env.surfaceBound window names available required inst surface)
      (hl : (windowCycle env window 128 0).result = .ok ())
      (hr : env.glfwDestroyWindow = .raise d) :
    RunShape env ⟨surfaceBoundTrace env window names available required inst surface
      ++ (windowCycle env window 128 0).trace
      ++ [.destroySurfaceKHR inst surface, .instanceDestroy inst,
        .glfwDestroyWindow window (.raise d), .write .cout ("Exception: " ++ d)],
      .EXIT_FAILURE⟩
  | terminateRaises (window : Nat) (names available required : List String)
      (inst surface : Nat) (d : String)
      (h : env.surfaceBound window names available required inst surface)
      (hl : (windowCycle env window 128 0).result = .ok ())
      (hd : env.glfwDestroyWindow = .ret ()) (hr : env.glfwTerminate = .raise d) :
    RunShape env ⟨surfaceBoundTrace env window names available required inst surface
      ++ (windowCycle env window 128 0).trace
      ++ [.destroySurfaceKHR inst surface, .instanceDestroy inst,
        .glfwDestroyWindow window (.ret ()), .glfwTerminate (.raise d),
        .write .cout ("Exception: " ++ d)], .EXIT_FAILURE⟩
  | success (window : Nat) (names available required : List String) (inst surface : Nat)
      (h : env.surfaceBound window names available required inst surface)
      (hl : (windowCycle env window 128 0).result = .ok ())
      (hd : env.glfwDestroyWindow = .ret ()) (ht : env.glfwTerminate = .ret ()) :
    RunShape env ⟨surfaceBoundTrace env window names available required inst surface
      ++ (windowCycle env window 128 0).trace
      ++ [.destroySurfaceKHR inst surface, .instanceDestroy inst,
        .glfwDestroyWindow window (.ret ()), .glfwTerminate (.ret ())], .EXIT_SUCCESS⟩

/-- A run that reaches the cleanup of lines 101-105: everything before the cleanup is free of
destroy calls and of failed calls and contains the creation of the window and of the
surface; the cleanup destroys that surface, its instance and that window, and ends the
run, cut short only by an error GLFW reports while destroying the window. -/
def Run.cleansUp (run : Run) : Prop :=
  ∃ pre window inst surface,
    (∀ x ∈ pre, x.isTeardown = false ∧ x.failure = none) ∧
    Event.glfwCreateWindow 512 512 "" (.ret window) ∈ pre ∧
    Event.glfwCreateWindowSurface inst window (.ret (0, surface)) ∈ pre ∧
    ((∃ d, run = ⟨pre ++ [.destroySurfaceKHR inst surface, .instanceDestroy inst,
        .glfwDestroyWindow window (.raise d), .write .cout ("Exception: " ++ d)],
        .EXIT_FAILURE⟩) ∨
      (∃ d, run = ⟨pre ++ [.destroySurfaceKHR inst surface, .instanceDestroy inst,
        .glfwDestroyWindow window (.ret ()), .glfwTerminate (.raise d),
        .write .cout ("Exception: " ++ d)], .EXIT_FAILURE⟩) ∨
      run = ⟨pre ++ [.destroySurfaceKHR inst surface, .instanceDestroy inst,
        .glfwDestroyWindow window (.ret ()), .glfwTerminate (.ret ())], .EXIT_SUCCESS⟩)

/-- Fail-fast shape of a computation: when it ends normally no call in it failed; when it
ends with `t`, the call that failed with `t` is its last event and no earlier call failed. -/
def FailFast {α : Type} (s : Step α) : Prop :=
  (∀ a, s.result = .ok a → ∀ e ∈ s.trace, e.failure = none) ∧
  (∀ t, s.result = .error t →
    ∃ pre e, s.trace = pre ++ [e] ∧ e.failure = some t ∧ ∀ x ∈ pre, x.failure = none)

/-! ## Concrete runs -/

/-- A run in which every call succeeds and the window asks to close at check `closeAt`. -/
def envOk (closeAt : Nat) : Env where
  glfwInit := true
  glfwWindowHint := fun _ => .ret ()
  glfwCreateWindow := .ret 1
  enumerateInstanceLayerProperties := .ret ["VK_LAYER_KHRONOS_validation"]
  unorderedSetOrder := List.dedup
  enumerateInstanceExtensionProperties := .ret ["VK_KHR_surface"]
  glfwGetRequiredInstanceExtensions := .ret ["ext_surface", "ext_platform_surface"]
  createInstance := (0, 2)
  glfwCreateWindowSurface := .ret (0, 3)
  glfwWindowShouldClose := fun i => .ret (decide (closeAt ≤ i))
  glfwPollEvents := fun _ => .ret ()
  glfwDestroyWindow := .ret ()
  glfwTerminate := .ret ()

/-- A run in which `glfwInit` fails. -/
def envInitFails : Env := { envOk 0 with glfwInit := false }

/-- A run in which GLFW reports an error while creating the window. -/
def envWindowRaises : Env := { envOk 0 with glfwCreateWindow := .raise "X11: no display" }

/-- A run in which the driver reports no layer at all. -/
def envNoLayers : Env := { envOk 0 with enumerateInstanceLayerProperties := .ret [] }

/-- A run in which the layer query throws a `vk::SystemError`. -/
def envLayerQueryThrows : Env :=
  { envOk 0 with enumerateInstanceLayerProperties := .systemError "ErrorOutOfHostMemory" }

/-- A run in which `vk::createInstance` returns `VK_ERROR_INCOMPATIBLE_DRIVER` (`-9`). -/
def envConnectionFails : Env := { envOk 0 with createInstance := (-9, 0) }

/-- A run in which `glfwCreateWindowSurface` returns `VK_ERROR_EXTENSION_NOT_PRESENT`
(`-7`). -/
def envSurfaceFails : Env := { envOk 0 with glfwCreateWindowSurface := .ret (-7, 0) }

/-- A run in which GLFW reports an error while destroying the window, after two polls. -/
def envDestroyWindowRaises : Env :=
  { envOk 2 with glfwDestroyWindow := .raise "platform error" }

/-- A run in which every earlier call succeeds, the window closes at once, and GLFW
reports an error while destroying the window. -/
def envTeardownInterrupted : Env :=
  { envOk 0 with glfwDestroyWindow := .raise "window already destroyed" }

/-! ## Sequencing -/

theorem Step.bind_eq {α β : Type} (s : Step α) (f : α → Step β) : s >>= f = s.andThen f := rfl

theorem Step.pure_eq {α : Type} (a : α) : (pure a : Step α) = Step.ret a := rfl

theorem Step.andThen_ok {α β : Type} {s : Step α} {a : α} (f : α → Step β)
    (h : s.result = .ok a) : s.andThen f = ⟨s.trace ++ (f a).trace, (f a).result⟩ := by
  simp [Step.andThen, h]

theorem Step.andThen_error {α β : Type} {s : Step α} {t : Thrown} (f : α → Step β)
    (h : s.result = .error t) : s.andThen f = ⟨s.trace, .error t⟩ := by
  simp [Step.andThen, h]

/-! ## Fail-fast shape -/

theorem FailFast.andThen {α β : Type} {s : Step α} {f : α → Step β} (hs : FailFast s)
    (hf : ∀ a, s.result = .ok a → FailFast (f a)) : FailFast (s.andThen f) := by
  cases hr : s.result with
  | error t =>
    rw [Step.andThen_error f hr]
    refine ⟨fun a h => by simp at h, fun t2 h => ?_⟩
    simp only [Except.error.injEq] at h
    subst h
    exact hs.2 t hr
  | ok a =>
    rw [Step.andThen_ok f hr]
    refine ⟨fun b h e he => ?_, fun t h => ?_⟩
    · simp only [List.mem_append] at he
      rcases he with he | he
      · exact hs.1 a hr e he
      · exact (hf a hr).1 b h e he
    · obtain ⟨pre, e, htr, hfail, hpre⟩ := (hf a hr).2 t h
      refine ⟨s.trace ++ pre, e, ?_, hfail, ?_⟩
      · simp [htr]
      · intro x hx
        simp only [List.mem_append] at hx
        rcases hx with hx | hx
        · exact hs.1 a hr x hx
        · exact hpre x hx

theorem failFast_ret {α : Type} (a : α) : FailFast (Step.ret a) :=
  ⟨fun _ _ e he => by simp [Step.ret] at he, fun t h => by simp [Step.ret] at h⟩

theorem failFast_plainCall {α : Type} {event : Event} (value : α)
    (h : event.failure = none) : FailFast (plainCall event value) :=
  ⟨fun _ _ e he => by simp [plainCall] at he; simpa [he] using h,
    fun t ht => by simp [plainCall] at ht⟩

theorem failFast_glfwCall {α : Type} {event : Glfw α → Event} (outcome : Glfw α)
    (hraise : ∀ d, (event (.raise d)).failure = some (.tvkException d))
    (hret : ∀ v, (event (.ret v)).failure = none) : FailFast (glfwCall event outcome) := by
  cases outcome with
  | raise d =>
    refine ⟨fun a h => by simp [glfwCall] at h, fun t ht => ?_⟩
    simp only [glfwCall, Except.error.injEq] at ht
    subst ht
    exact ⟨[], _, rfl, hraise d, by simp⟩
  | ret v =>
    refine ⟨fun a _ e he => ?_, fun t ht => by simp [glfwCall] at ht⟩
    simp only [glfwCall, List.mem_singleton] at he
    rw [he]
    exact hret v

theorem failFast_vkCall {α : Type} {event : Vk α → Event} (outcome : Vk α)
    (hsys : ∀ w, (event (.systemError w)).failure = some (.vkSystemError w))
    (hstd : ∀ w, (event (.stdError w)).failure = some (.stdException w))
    (hother : (event .otherError).failure = some .unknown)
    (hret : ∀ v, (event (.ret v)).failure = none) : FailFast (vkCall event outcome) := by
  cases outcome with
  | systemError w =>
    refine ⟨fun a h => by simp [vkCall] at h, fun t ht => ?_⟩
    simp only [vkCall, Except.error.injEq] at ht
    subst ht
    exact ⟨[], _, rfl, hsys w, by simp⟩
  | stdError w =>
    refine ⟨fun a h => by simp [vkCall] at h, fun t ht => ?_⟩
    simp only [vkCall, Except.error.injEq] at ht
    subst ht
    exact ⟨[], _, rfl, hstd w, by simp⟩
  | otherError =>
    refine ⟨fun a h => by simp [vkCall] at h, fun t ht => ?_⟩
    simp only [vkCall, Except.error.injEq] at ht
    subst ht
    exact ⟨[], _, rfl, hother, by simp⟩
  | ret v =>
    refine ⟨fun a _ e he => ?_, fun t ht => by simp [vkCall] at ht⟩
    simp only [vkCall, List.mem_singleton] at he
    rw [he]
    exact hret v

theorem failFast_writeLine (stream : Stream) (line : String) :
    FailFast (writeLine stream line) :=
  failFast_plainCall () rfl

theorem failFast_printNames (names : List String) : FailFast (printNames names) := by
  induction names with
  | nil => exact failFast_ret ()
  | cons name rest ih =>
    exact FailFast.andThen (failFast_writeLine _ _) (fun _ _ => ih)

theorem failFast_negotiateLayers (available requested enabled : List String) :
    FailFast (negotiateLayers available requested enabled) := by
  induction requested generalizing enabled with
  | nil => exact failFast_ret _
  | cons layer rest ih =>
    unfold negotiateLayers
    split
    · exact ih _
    · exact FailFast.andThen (failFast_writeLine _ _) (fun _ _ => ih _)

theorem failFast_ok {α : Type} (trace : List Event) (a : α)
    (h : ∀ e ∈ trace, e.failure = none) : FailFast (⟨trace, .ok a⟩ : Step α) :=
  ⟨fun _ _ e he => h e he, fun t ht => by simp at ht⟩

theorem failFast_error {α : Type} (pre : List Event) (e : Event) (t : Thrown)
    (hpre : ∀ x ∈ pre, x.failure = none) (hfail : e.failure = some t) :
    FailFast (⟨pre ++ [e], .error t⟩ : Step α) := by
  refine ⟨fun a ha => by simp at ha, fun t2 ht => ?_⟩
  simp only [Except.error.injEq] at ht
  subst ht
  exact ⟨pre, e, rfl, hfail, hpre⟩

/-! ## The checked calls, evaluated -/

theorem initGlfw_of_true {env : Env} (h : env.glfwInit = true) :
    initGlfw env = ⟨[.glfwInit true], .ok ()⟩ := by
  simp [initGlfw, Step.bind_eq, Step.pure_eq, Step.andThen, Step.ret, plainCall, h]

theorem initGlfw_of_false {env : Env} (h : env.glfwInit = false) :
    initGlfw env
      = ⟨[] ++ [.glfwInit false], .error (.tvkException "Failed to initialize GLFW")⟩ := by
  simp [initGlfw, Step.bind_eq, Step.andThen, plainCall, raise, h]

theorem createWindow_of_raise {env : Env} {d : String} (h : env.glfwCreateWindow = .raise d) :
    createWindow env
      = ⟨[] ++ [.glfwCreateWindow 512 512 "" (.raise d)], .error (.tvkException d)⟩ := by
  simp [createWindow, Step.bind_eq, Step.andThen, glfwCall, h]

theorem createWindow_of_null {env : Env} (h : env.glfwCreateWindow = .ret 0) :
    createWindow env = ⟨[] ++ [.glfwCreateWindow 512 512 "" (.ret 0)],
      .error (.tvkException "Failed to create GLFW window")⟩ := by
  simp [createWindow, Step.bind_eq, Step.andThen, glfwCall, raise, h]

theorem createWindow_of_ret {env : Env} {window : Nat} (h : env.glfwCreateWindow = .ret window)
    (hw : window ≠ 0) :
    createWindow env = ⟨[.glfwCreateWindow 512 512 "" (.ret window)], .ok window⟩ := by
  simp [createWindow, Step.bind_eq, Step.pure_eq, Step.andThen, Step.ret, glfwCall, h, hw]

theorem createVulkanInstance_of_success {env : Env} (enabledLayers extensions : List String)
    (h : env.createInstance.1 = 0) :
    createVulkanInstance env enabledLayers extensions
      = ⟨[.createInstance appInfo enabledLayers extensions
          env.createInstance.1 env.createInstance.2], .ok env.createInstance.2⟩ := by
  simp [createVulkanInstance, Step.bind_eq, Step.pure_eq, Step.andThen, Step.ret, plainCall, h]

theorem createVulkanInstance_of_failure {env : Env} (enabledLayers extensions : List String)
    (h : env.createInstance.1 ≠ 0) :
    createVulkanInstance env enabledLayers extensions
      = ⟨[] ++ [.createInstance appInfo enabledLayers
          extensions env.createInstance.1 env.createInstance.2],
        .error (.tvkException "Failed to create Vulkan instance")⟩ := by
  simp [createVulkanInstance, Step.bind_eq, Step.andThen, plainCall, raise, h]

theorem createSurface_of_raise {env : Env} {d : String} (inst window : Nat)
    (h : env.glfwCreateWindowSurface = .raise d) :
    createSurface env inst window
      = ⟨[] ++ [.glfwCreateWindowSurface inst window (.raise d)],
        .error (.tvkException d)⟩ := by
  simp [createSurface, Step.bind_eq, Step.andThen, glfwCall, h]

theorem createSurface_of_failure {env : Env} {result : Int} {surface : Nat} (inst window : Nat)
    (h : env.glfwCreateWindowSurface = .ret (result, surface)) (hr : result ≠ 0) :
    createSurface env inst window
      = ⟨[] ++ [.glfwCreateWindowSurface inst window (.ret (result, surface))],
        .error (.tvkException "Failed to create window surface")⟩ := by
  simp [createSurface, Step.bind_eq, Step.andThen, glfwCall, raise, h, hr]

theorem createSurface_of_success {env : Env} {surface : Nat} (inst window : Nat)
    (h : env.glfwCreateWindowSurface = .ret (0, surface)) :
    createSurface env inst window
      = ⟨[.glfwCreateWindowSurface inst window (.ret (0, surface))], .ok surface⟩ := by
  simp [createSurface, Step.bind_eq, Step.pure_eq, Step.andThen, Step.ret, glfwCall, h]

/-! ## The other blocks, evaluated -/

theorem printNames_eq (names : List String) :
    printNames names = ⟨names.map nameLine, .ok ()⟩ := by
  induction names with
  | nil => rfl
  | cons name rest ih =>
    simp [printNames, ih, Step.bind_eq, Step.andThen, writeLine, plainCall, nameLine]

theorem negotiateLayers_eq (available requested enabled : List String) :
    negotiateLayers available requested enabled
      = ⟨(requested.filter (fun layer => decide (layer ∉ available))).map layerWarning,
        .ok (enabled ++ requested.filter (fun layer => decide (layer ∈ available)))⟩ := by
  induction requested generalizing enabled with
  | nil => simp [negotiateLayers, Step.pure_eq, Step.ret]
  | cons layer rest ih =>
    by_cases h : layer ∈ available
    · simp [negotiateLayers, h, ih]
    · simp [negotiateLayers, h, ih, Step.bind_eq, Step.andThen, writeLine, plainCall,
        layerWarning]

theorem vkCall_of_ret {α : Type} (event : Vk α → Event) (value : α) :
    vkCall event (.ret value) = ⟨[event (.ret value)], .ok value⟩ := rfl

theorem vkCall_of_thrown {α : Type} (event : Vk α → Event) {outcome : Vk α} {t : Thrown}
    (h : outcome.thrown = some t) : vkCall event outcome = ⟨[event outcome], .error t⟩ := by
  cases outcome <;> simp_all [Vk.thrown, vkCall]

theorem checkLayers_of_ret {env : Env} {names : List String}
    (h : env.enumerateInstanceLayerProperties = .ret names) :
    checkLayers env
      = ⟨[.enumerateInstanceLayerProperties (.ret names), .write .cout "Available layers"]
          ++ (env.unorderedSetOrder names).map nameLine ++ (missingOf names).map layerWarning,
        .ok (enabledOf names)⟩ := by
  simp [checkLayers, h, vkCall_of_ret, printNames_eq, negotiateLayers_eq, Step.bind_eq,
    Step.andThen, writeLine, plainCall, missingOf, enabledOf]

theorem checkLayers_of_thrown {env : Env} {t : Thrown}
    (h : env.enumerateInstanceLayerProperties.thrown = some t) :
    checkLayers env
      = ⟨[.enumerateInstanceLayerProperties env.enumerateInstanceLayerProperties],
        .error t⟩ := by
  simp [checkLayers, vkCall_of_thrown _ h, Step.bind_eq, Step.andThen]

theorem queryExtensions_of_ret {env : Env} {available : List String}
    (h : env.enumerateInstanceExtensionProperties = .ret available) :
    queryExtensions env
      = ⟨[.write .cout "Available extensions",
            .enumerateInstanceExtensionProperties (.ret available)] ++ available.map nameLine,
        .ok ()⟩ := by
  simp [queryExtensions, h, vkCall_of_ret, printNames_eq, Step.bind_eq, Step.andThen,
    writeLine, plainCall]

theorem queryExtensions_of_thrown {env : Env} {t : Thrown}
    (h : env.enumerateInstanceExtensionProperties.thrown = some t) :
    queryExtensions env
      = ⟨[.write .cout "Available extensions",
          .enumerateInstanceExtensionProperties env.enumerateInstanceExtensionProperties],
        .error t⟩ := by
  simp [queryExtensions, vkCall_of_thrown _ h, Step.bind_eq, Step.andThen, writeLine,
    plainCall]

theorem addRequiredExtensions_of_ret {env : Env} {required : List String}
    (h : env.glfwGetRequiredInstanceExtensions = .ret required) :
    addRequiredExtensions env
      = ⟨[.glfwGetRequiredInstanceExtensions (.ret required)], .ok required⟩ := by
  simp [addRequiredExtensions, h, glfwCall, Step.bind_eq, Step.pure_eq, Step.andThen, Step.ret]

theorem addRequiredExtensions_of_raise {env : Env} {d : String}
    (h : env.glfwGetRequiredInstanceExtensions = .raise d) :
    addRequiredExtensions env
      = ⟨[.glfwGetRequiredInstanceExtensions (.raise d)], .error (.tvkException d)⟩ := by
  simp [addRequiredExtensions, h, glfwCall, Step.bind_eq, Step.andThen]

theorem Vk.thrown_or_ret {α : Type} (outcome : Vk α) :
    (∃ t, outcome.thrown = some t) ∨ ∃ value, outcome = .ret value := by
  cases outcome <;> simp [Vk.thrown]

/-! ## Fail-fast shape of the blocks -/

theorem failFast_initGlfw (env : Env) : FailFast (initGlfw env) := by
  cases h : env.glfwInit with
  | true =>
    rw [initGlfw_of_true h]
    exact failFast_ok _ _ (by simp [Event.failure])
  | false =>
    rw [initGlfw_of_false h]
    exact failFast_error _ _ _ (by simp) rfl

theorem failFast_createWindow (env : Env) : FailFast (createWindow env) := by
  cases h : env.glfwCreateWindow with
  | raise d =>
    rw [createWindow_of_raise h]
    exact failFast_error _ _ _ (by simp) rfl
  | ret window =>
    cases window with
    | zero =>
      rw [createWindow_of_null h]
      exact failFast_error _ _ _ (by simp) rfl
    | succ n =>
      rw [createWindow_of_ret h (Nat.succ_ne_zero n)]
      exact failFast_ok _ _ (by simp [Event.failure])

theorem failFast_createVulkanInstance (env : Env) (enabledLayers extensions : List String) :
    FailFast (createVulkanInstance env enabledLayers extensions) := by
  by_cases hr : env.createInstance.1 = 0
  · rw [createVulkanInstance_of_success _ _ hr]
    exact failFast_ok _ _ (by simp [Event.failure, hr])
  · rw [createVulkanInstance_of_failure _ _ hr]
    exact failFast_error _ _ _ (by simp) (by simp [Event.failure, hr])

theorem failFast_createSurface (env : Env) (inst window : Nat) :
    FailFast (createSurface env inst window) := by
  cases h : env.glfwCreateWindowSurface with
  | raise d =>
    rw [createSurface_of_raise _ _ h]
    exact failFast_error _ _ _ (by simp) rfl
  | ret bound =>
    obtain ⟨result, surface⟩ := bound
    by_cases hr : result = 0
    · subst hr
      rw [createSurface_of_success _ _ h]
      exact failFast_ok _ _ (by simp [Event.failure])
    · rw [createSurface_of_failure _ _ h hr]
      exact failFast_error _ _ _ (by simp) (by simp [Event.failure, hr])

theorem failFast_checkLayers (env : Env) : FailFast (checkLayers env) :=
  FailFast.andThen (failFast_vkCall _ (fun _ => rfl) (fun _ => rfl) rfl (fun _ => rfl))
    (fun _ _ => FailFast.andThen (failFast_writeLine _ _)
      (fun _ _ => FailFast.andThen (failFast_printNames _)
        (fun _ _ => failFast_negotiateLayers _ _ _)))

theorem failFast_queryExtensions (env : Env) : FailFast (queryExtensions env) :=
  FailFast.andThen (failFast_writeLine _ _)
    (fun _ _ => FailFast.andThen
      (failFast_vkCall _ (fun _ => rfl) (fun _ => rfl) rfl (fun _ => rfl))
      (fun _ _ => failFast_printNames _))

theorem failFast_addRequiredExtensions (env : Env) : FailFast (addRequiredExtensions env) :=
  FailFast.andThen (failFast_glfwCall _ (fun _ => rfl) (fun _ => rfl))
    (fun _ _ => failFast_ret _)

theorem failFast_windowCycle (env : Env) (window fuel i : Nat) :
    FailFast (windowCycle env window fuel i) := by
  induction fuel generalizing i with
  | zero => exact failFast_ret ()
  | succ fuel ih =>
    unfold windowCycle
    split
    · refine FailFast.andThen (failFast_glfwCall _ (fun _ => rfl) (fun _ => rfl)) ?_
      intro shouldClose _
      split
      · exact failFast_ret ()
      · exact FailFast.andThen (failFast_glfwCall _ (fun _ => rfl) (fun _ => rfl))
          (fun _ _ => ih _)
    · exact failFast_ret ()

theorem failFast_cleanup (env : Env) (window inst surface : Nat) :
    FailFast (cleanup env window inst surface) :=
  FailFast.andThen (failFast_plainCall _ rfl)
    (fun _ _ => FailFast.andThen (failFast_plainCall _ rfl)
      (fun _ _ => FailFast.andThen (failFast_glfwCall _ (fun _ => rfl) (fun _ => rfl))
        (fun _ _ => failFast_glfwCall _ (fun _ => rfl) (fun _ => rfl))))

theorem failFast_setup (env : Env) : FailFast (setup env) :=
  FailFast.andThen (failFast_initGlfw env)
    (fun _ _ => FailFast.andThen (failFast_plainCall _ rfl)
      (fun _ _ => FailFast.andThen (failFast_glfwCall _ (fun _ => rfl) (fun _ => rfl))
        (fun _ _ => FailFast.andThen (failFast_glfwCall _ (fun _ => rfl) (fun _ => rfl))
          (fun _ _ => FailFast.andThen (failFast_createWindow env)
            (fun _ _ => FailFast.andThen (failFast_checkLayers env)
              (fun _ _ => FailFast.andThen (failFast_queryExtensions env)
                (fun _ _ => FailFast.andThen (failFast_addRequiredExtensions env)
                  (fun _ _ => FailFast.andThen (failFast_createVulkanInstance env _ _)
                    (fun _ _ => FailFast.andThen (failFast_createSurface env _ _)
                      (fun _ _ => FailFast.andThen (failFast_windowCycle env _ _ _)
                        (fun _ _ => failFast_ret _)))))))))))

theorem failFast_tryBlock (env : Env) : FailFast (tryBlock env) :=
  FailFast.andThen (failFast_setup env) (fun _ _ => failFast_cleanup env _ _ _)

/-! ## The window cycle -/

theorem windowCycle_zero (env : Env) (window i : Nat) :
    windowCycle env window 0 i = ⟨[], .ok ()⟩ := rfl

theorem windowCycle_succ (env : Env) (window fuel i : Nat) :
    windowCycle env window (fuel + 1) i =
      if i < 128 then
        match env.glfwWindowShouldClose i with
        | .raise d => ⟨[.glfwWindowShouldClose window (.raise d)], .error (.tvkException d)⟩
        | .ret true => ⟨[.glfwWindowShouldClose window (.ret true)], .ok ()⟩
        | .ret false =>
          match env.glfwPollEvents i with
          | .raise d =>
            ⟨[.glfwWindowShouldClose window (.ret false), .glfwPollEvents (.raise d)],
              .error (.tvkException d)⟩
          | .ret _ =>
            ⟨[.glfwWindowShouldClose window (.ret false), .glfwPollEvents (.ret ())]
                ++ (windowCycle env window fuel (i + 1)).trace,
              (windowCycle env window fuel (i + 1)).result⟩
      else ⟨[], .ok ()⟩ := by
  by_cases hi : i < 128
  · cases hc : env.glfwWindowShouldClose i with
    | raise d => simp [windowCycle, hi, hc, glfwCall, Step.bind_eq, Step.andThen]
    | ret close =>
      cases close with
      | true => simp [windowCycle, hi, hc, glfwCall, Step.bind_eq, Step.pure_eq, Step.andThen,
          Step.ret]
      | false =>
        cases hp : env.glfwPollEvents i with
        | raise d => simp [windowCycle, hi, hc, hp, glfwCall, Step.bind_eq, Step.andThen]
        | ret u => simp [windowCycle, hi, hc, hp, glfwCall, Step.bind_eq, Step.andThen]
  · simp [windowCycle, hi, Step.pure_eq, Step.ret]

/-- Every event of the window cycle is a close check on `window` or a poll. -/
theorem windowCycle_events (env : Env) (window fuel i : Nat) :
    ∀ e ∈ (windowCycle env window fuel i).trace,
      (∃ outcome, e = .glfwWindowShouldClose window outcome)
        ∨ ∃ outcome, e = .glfwPollEvents outcome := by
  induction fuel generalizing i with
  | zero => simp [windowCycle_zero]
  | succ fuel ih =>
    rw [windowCycle_succ]
    split
    · split
      · simp
      · simp
      · split
        · simp
        · intro e he
          simp only [List.cons_append, List.nil_append, List.mem_cons] at he
          rcases he with he | he | he
          · exact Or.inl ⟨_, he⟩
          · exact Or.inr ⟨_, he⟩
          · exact ih _ e he
    · simp

/-- The window cycle polls at most once per unit of its iteration bound. -/
theorem windowCycle_polls_le (env : Env) (window fuel i : Nat) :
    (windowCycle env window fuel i).trace.countP Event.isPoll ≤ fuel := by
  induction fuel generalizing i with
  | zero => simp [windowCycle_zero]
  | succ fuel ih =>
    rw [windowCycle_succ]
    split
    · split
      · simp [Event.isPoll]
      · simp [Event.isPoll]
      · split
        · simp [Event.isPoll]
        · have := ih (i + 1)
          simp only [List.cons_append, List.nil_append, List.countP_cons, Event.isPoll]
          simp
          omega
    · simp

/-- In the window cycle every poll follows a close check of its own: the close checks are as
many as the polls, or one more. -/
theorem windowCycle_checks (env : Env) (window fuel i : Nat) :
    (windowCycle env window fuel i).trace.countP Event.isPoll
        ≤ (windowCycle env window fuel i).trace.countP Event.isCloseCheck ∧
      (windowCycle env window fuel i).trace.countP Event.isCloseCheck
        ≤ (windowCycle env window fuel i).trace.countP Event.isPoll + 1 := by
  induction fuel generalizing i with
  | zero => simp [windowCycle_zero]
  | succ fuel ih =>
    rw [windowCycle_succ]
    split
    · split
      · simp [Event.isPoll, Event.isCloseCheck]
      · simp [Event.isPoll, Event.isCloseCheck]
      · split
        · simp [Event.isPoll, Event.isCloseCheck]
        · have := ih (i + 1)
          simp only [List.cons_append, List.nil_append, List.countP_cons, Event.isPoll,
            Event.isCloseCheck]
          simp
          omega
    · simp

/-- With an iteration bound of at least `128 - i` the window cycle from iteration `i` does
not depend on the bound: `128` is enough for the whole loop. -/
theorem windowCycle_fuel (env : Env) (window fuel i : Nat) (h : 128 - i ≤ fuel) :
    windowCycle env window fuel i = windowCycle env window (128 - i) i := by
  induction fuel generalizing i with
  | zero =>
    have : 128 - i = 0 := by omega
    rw [this]
  | succ fuel ih =>
    by_cases hi : i < 128
    · obtain ⟨m, hm⟩ : ∃ m, 128 - i = m + 1 := ⟨128 - i - 1, by omega⟩
      rw [hm, windowCycle_succ, windowCycle_succ]
      have h1 := ih (i + 1) (by omega)
      have h2 : m = 128 - (i + 1) := by omega
      rw [h1, h2]
    · have : 128 - i = 0 := by omega
      rw [this, windowCycle_succ, windowCycle_zero]
      simp [hi]

/-- Any iteration bound of at least `128` gives the whole loop of lines 97-99: the bound
`128` used by `setup` never cuts the loop short. -/
theorem windowCycle_enough (env : Env) (window fuel : Nat) (h : 128 ≤ fuel) :
    windowCycle env window fuel 0 = windowCycle env window 128 0 :=
  windowCycle_fuel env window fuel 0 (by omega)

/-- The window cycle when the close checks answer `false` for the first `k` iterations and
`true` at iteration `k`, and no call reports an error. -/
theorem windowCycle_of_answers (env : Env) (window k : Nat)
    (hfalse : ∀ i, i < k → i < 128 →
      env.glfwWindowShouldClose i = .ret false ∧ env.glfwPollEvents i = .ret ())
    (htrue : k < 128 → env.glfwWindowShouldClose k = .ret true) (fuel i : Nat)
    (hi : i ≤ min 128 k) (hfuel : 128 - i ≤ fuel) :
    windowCycle env window fuel i
      = ⟨(List.replicate (min 128 k - i)
            [.glfwWindowShouldClose window (.ret false), .glfwPollEvents (.ret ())]).flatten
          ++ (if k < 128 then [.glfwWindowShouldClose window (.ret true)] else []),
        .ok ()⟩ := by
  induction fuel generalizing i with
  | zero =>
    have h1 : min 128 k - i = 0 := by omega
    have h2 : ¬ k < 128 := by omega
    simp [windowCycle_zero, h1, h2]
  | succ fuel ih =>
    rw [windowCycle_succ]
    by_cases h128 : i < 128
    · by_cases hik : i < k
      · obtain ⟨hc, hp⟩ := hfalse i hik h128
        have hrec := ih (i + 1) (by omega) (by omega)
        obtain ⟨m, hm⟩ : ∃ m, min 128 k - i = m + 1 := ⟨min 128 k - i - 1, by omega⟩
        have hm2 : min 128 k - (i + 1) = m := by omega
        simp only [h128, if_true, hc, hp, hrec, hm, hm2, List.replicate_succ,
          List.flatten_cons, List.append_assoc]
      · have hk : k = i := by omega
        subst hk
        have hc := htrue h128
        have h1 : min 128 k - k = 0 := by omega
        simp [h128, hc, h1]
    · have h1 : min 128 k - i = 0 := by omega
      have h2 : ¬ k < 128 := by omega
      simp [h128, h1, h2]

/-! ## Every run has one of the listed shapes -/

theorem main_shape (env : Env) : RunShape env (main env) := by
  cases h0 : env.glfwInit with
  | false =>
    have hm : main env = ⟨[.glfwInit false,
        .write .cout "Exception: Failed to initialize GLFW"], .EXIT_FAILURE⟩ := by
      simp [main, tryBlock, setup, initGlfw_of_false h0, Step.bind_eq, Step.andThen, diagnostic]
    rw [hm]
    exact .initFails h0
  | true =>
  cases h1 : env.glfwWindowHint .GLFW_CLIENT_API with
  | raise d =>
    have hm : main env = ⟨[.glfwInit true, .glfwSetErrorCallback,
        .glfwWindowHint .GLFW_CLIENT_API .GLFW_NO_API (.raise d),
        .write .cout ("Exception: " ++ d)], .EXIT_FAILURE⟩ := by
      simp [main, tryBlock, setup, initGlfw_of_true h0, h1, glfwCall, plainCall, Step.bind_eq,
        Step.andThen, diagnostic]
    rw [hm]
    exact .clientApiHintRaises d h0 h1
  | ret u1 =>
  cases h2 : env.glfwWindowHint .GLFW_DECORATED with
  | raise d =>
    have hm : main env = ⟨[.glfwInit true, .glfwSetErrorCallback,
        .glfwWindowHint .GLFW_CLIENT_API .GLFW_NO_API (.ret ()),
        .glfwWindowHint .GLFW_DECORATED .GLFW_FALSE (.raise d),
        .write .cout ("Exception: " ++ d)], .EXIT_FAILURE⟩ := by
      simp [main, tryBlock, setup, initGlfw_of_true h0, h1, h2, glfwCall, plainCall,
        Step.bind_eq, Step.andThen, diagnostic]
    rw [hm]
    exact .decoratedHintRaises d h0 h1 h2
  | ret u2 =>
  have hh : env.hinted := ⟨h0, h1, h2⟩
  cases h3 : env.glfwCreateWindow with
  | raise d =>
    have hm : main env = ⟨hintedTrace ++ [.glfwCreateWindow 512 512 "" (.raise d),
        .write .cout ("Exception: " ++ d)], .EXIT_FAILURE⟩ := by
      simp [main, tryBlock, setup, initGlfw_of_true h0, h1, h2, createWindow_of_raise h3,
        glfwCall, plainCall, Step.bind_eq, Step.andThen, diagnostic, hintedTrace]
    rw [hm]
    exact .createWindowRaises d hh h3
  | ret window =>
  by_cases hw : window = 0
  · subst hw
    have hm : main env = ⟨hintedTrace ++ [.glfwCreateWindow 512 512 "" (.ret 0),
        .write .cout "Exception: Failed to create GLFW window"], .EXIT_FAILURE⟩ := by
      simp [main, tryBlock, setup, initGlfw_of_true h0, h1, h2, createWindow_of_null h3,
        glfwCall, plainCall, Step.bind_eq, Step.andThen, diagnostic, hintedTrace]
    rw [hm]
    exact .createWindowNull hh h3
  rcases Vk.thrown_or_ret env.enumerateInstanceLayerProperties with ⟨t, h4⟩ | ⟨names, h4⟩
  · have hm : main env = ⟨hintedTrace ++ [.glfwCreateWindow 512 512 "" (.ret window),
        .enumerateInstanceLayerProperties env.enumerateInstanceLayerProperties,
        diagnostic t], .EXIT_FAILURE⟩ := by
      simp [main, tryBlock, setup, initGlfw_of_true h0, h1, h2, createWindow_of_ret h3 hw,
        checkLayers_of_thrown h4, glfwCall, plainCall, Step.bind_eq, Step.andThen,
        hintedTrace]
    rw [hm]
    exact .layerQueryThrows window t hh h3 hw h4
  have hl : env.layersChecked window names := ⟨hh, h3, hw, h4⟩
  rcases Vk.thrown_or_ret env.enumerateInstanceExtensionProperties with ⟨t, h5⟩ | ⟨available, h5⟩
  · have hm : main env = ⟨layersCheckedTrace env window names
        ++ [.write .cout "Available extensions",
          .enumerateInstanceExtensionProperties env.enumerateInstanceExtensionProperties,
          diagnostic t], .EXIT_FAILURE⟩ := by
      simp [main, tryBlock, setup, initGlfw_of_true h0, h1, h2, createWindow_of_ret h3 hw,
        checkLayers_of_ret h4, queryExtensions_of_thrown h5, glfwCall, plainCall,
        Step.bind_eq, Step.andThen, hintedTrace, layersCheckedTrace]
    rw [hm]
    exact .extensionQueryThrows window names t hl h5
  cases h6 : env.glfwGetRequiredInstanceExtensions with
  | raise d =>
    have hm : main env = ⟨extensionsListedTrace env window names available
        ++ [.glfwGetRequiredInstanceExtensions (.raise d), .write .cout ("Exception: " ++ d)],
        .EXIT_FAILURE⟩ := by
      simp [main, tryBlock, setup, initGlfw_of_true h0, h1, h2, createWindow_of_ret h3 hw,
        checkLayers_of_ret h4, queryExtensions_of_ret h5, addRequiredExtensions_of_raise h6,
        glfwCall, plainCall, Step.bind_eq, Step.andThen, diagnostic, hintedTrace,
        layersCheckedTrace, extensionsListedTrace]
    rw [hm]
    exact .requiredExtensionsRaises window names available d hl h5 h6
  | ret required =>
  have hk : env.extensionsKnown window names available required := ⟨hl, h5, h6⟩
  by_cases h7 : env.createInstance.1 = 0
  swap
  · have hm : main env = ⟨extensionsListedTrace env window names available
        ++ [.glfwGetRequiredInstanceExtensions (.ret required),
          .createInstance appInfo (enabledOf names) required env.createInstance.1
            env.createInstance.2,
          .write .cout "Exception: Failed to create Vulkan instance"], .EXIT_FAILURE⟩ := by
      simp [main, tryBlock, setup, initGlfw_of_true h0, h1, h2, createWindow_of_ret h3 hw,
        checkLayers_of_ret h4, queryExtensions_of_ret h5, addRequiredExtensions_of_ret h6,
        createVulkanInstance_of_failure _ _ h7,
        glfwCall, plainCall, Step.bind_eq, Step.andThen, diagnostic, hintedTrace,
        layersCheckedTrace, extensionsListedTrace]
    rw [hm]
    exact .createInstanceFails window names available required hk h7
  cases h8 : env.glfwCreateWindowSurface with
  | raise d =>
    have hm : main env = ⟨extensionsListedTrace env window names available
        ++ [.glfwGetRequiredInstanceExtensions (.ret required),
          .createInstance appInfo (enabledOf names) required 0 env.createInstance.2,
          .glfwCreateWindowSurface env.createInstance.2 window (.raise d),
          .write .cout ("Exception: " ++ d)], .EXIT_FAILURE⟩ := by
      simp [main, tryBlock, setup, initGlfw_of_true h0, h1, h2, createWindow_of_ret h3 hw,
        checkLayers_of_ret h4, queryExtensions_of_ret h5, addRequiredExtensions_of_ret h6,
        createVulkanInstance_of_success _ _ h7, createSurface_of_raise _ _ h8,
        glfwCall, plainCall, Step.bind_eq, Step.andThen, diagnostic, hintedTrace,
        layersCheckedTrace, extensionsListedTrace, h7]
    rw [hm]
    exact .createSurfaceRaises window names available required d hk h7 h8
  | ret bound =>
  obtain ⟨result, surface⟩ := bound
  by_cases h9 : result = 0
  swap
  · have hm : main env = ⟨extensionsListedTrace env window names available
        ++ [.glfwGetRequiredInstanceExtensions (.ret required),
          .createInstance appInfo (enabledOf names) required 0 env.createInstance.2,
          .glfwCreateWindowSurface env.createInstance.2 window (.ret (result, surface)),
          .write .cout "Exception: Failed to create window surface"], .EXIT_FAILURE⟩ := by
      simp [main, tryBlock, setup, initGlfw_of_true h0, h1, h2, createWindow_of_ret h3 hw,
        checkLayers_of_ret h4, queryExtensions_of_ret h5, addRequiredExtensions_of_ret h6,
        createVulkanInstance_of_success _ _ h7, createSurface_of_failure _ _ h8 h9,
        glfwCall, plainCall, Step.bind_eq, Step.andThen, diagnostic, hintedTrace,
        layersCheckedTrace, extensionsListedTrace, h7]
    rw [hm]
    exact .createSurfaceFails window names available required result surface hk h7 h8 h9
  subst h9
  have hci : env.createInstance = (0, env.createInstance.2) := Prod.ext h7 rfl
  have hb : env.surfaceBound window names available required env.createInstance.2 surface :=
    ⟨hk, hci, h8⟩
  have hs : setup env = ⟨surfaceBoundTrace env window names available required
        env.createInstance.2 surface ++ (windowCycle env window 128 0).trace,
      (windowCycle env window 128 0).result.map
        (fun _ => (window, env.createInstance.2, surface))⟩ := by
    cases hl : (windowCycle env window 128 0).result <;>
    simp [setup, initGlfw_of_true h0, h1, h2, createWindow_of_ret h3 hw,
      checkLayers_of_ret h4, queryExtensions_of_ret h5, addRequiredExtensions_of_ret h6,
      createVulkanInstance_of_success _ _ h7, createSurface_of_success _ _ h8,
      glfwCall, plainCall, Step.bind_eq, Step.pure_eq, Step.ret, Step.andThen, hintedTrace,
      layersCheckedTrace, extensionsListedTrace, surfaceBoundTrace, h7, hl, Except.map]
  cases hl : (windowCycle env window 128 0).result with
  | error t =>
    have hm : main env = ⟨surfaceBoundTrace env window names available required
        env.createInstance.2 surface ++ (windowCycle env window 128 0).trace ++ [diagnostic t],
        .EXIT_FAILURE⟩ := by
      simp [main, tryBlock, hs, hl, Step.bind_eq, Step.andThen, Except.map]
    rw [hm]
    exact .windowCycleRaises window names available required _ surface t hb hl
  | ok u =>
  cases h10 : env.glfwDestroyWindow with
  | raise d =>
    have hm : main env = ⟨surfaceBoundTrace env window names available required
        env.createInstance.2 surface ++ (windowCycle env window 128 0).trace
        ++ [.destroySurfaceKHR env.createInstance.2 surface,
          .instanceDestroy env.createInstance.2,
          .glfwDestroyWindow window (.raise d), .write .cout ("Exception: " ++ d)],
        .EXIT_FAILURE⟩ := by
      simp [main, tryBlock, hs, hl, cleanup, h10, glfwCall, plainCall, Step.bind_eq,
        Step.andThen, Except.map, diagnostic]
    rw [hm]
    exact .destroyWindowRaises window names available required _ surface d hb hl h10
  | ret u3 =>
  cases h11 : env.glfwTerminate with
  | raise d =>
    have hm : main env = ⟨surfaceBoundTrace env window names available required
        env.createInstance.2 surface ++ (windowCycle env window 128 0).trace
        ++ [.destroySurfaceKHR env.createInstance.2 surface,
          .instanceDestroy env.createInstance.2,
          .glfwDestroyWindow window (.ret ()), .glfwTerminate (.raise d),
          .write .cout ("Exception: " ++ d)], .EXIT_FAILURE⟩ := by
      simp [main, tryBlock, hs, hl, cleanup, h10, h11, glfwCall, plainCall, Step.bind_eq,
        Step.andThen, Except.map, diagnostic]
    rw [hm]
    exact .terminateRaises window names available required _ surface d hb hl h10 h11
  | ret u4 =>
    have hm : main env = ⟨surfaceBoundTrace env window names available required
        env.createInstance.2 surface ++ (windowCycle env window 128 0).trace
        ++ [.destroySurfaceKHR env.createInstance.2 surface,
          .instanceDestroy env.createInstance.2,
          .glfwDestroyWindow window (.ret ()), .glfwTerminate (.ret ())],
        .EXIT_SUCCESS⟩ := by
      simp [main, tryBlock, hs, hl, cleanup, h10, h11, glfwCall, plainCall, Step.bind_eq,
        Step.andThen, Except.map]
    rw [hm]
    exact .success window names available required _ surface hb hl h10 h11

/-! ## Fail-fast shape of a run -/

theorem diagnostic_failure (t : Thrown) : (diagnostic t).failure = none := by
  cases t <;> rfl

theorem main_of_ok {env : Env} (h : (tryBlock env).result = .ok ()) :
    main env = ⟨(tryBlock env).trace, .EXIT_SUCCESS⟩ := by
  simp [main, h]

theorem main_of_error {env : Env} {t : Thrown} (h : (tryBlock env).result = .error t) :
    main env = ⟨(tryBlock env).trace ++ [diagnostic t], .EXIT_FAILURE⟩ := by
  simp [main, h]

/-- A failed call is the last call of the run: it is followed by the line of the `catch`
clause only, nothing before it failed, and the run ends with the failure status. -/
theorem main_failure (env : Env) (e : Event) (t : Thrown) (he : e ∈ (main env).trace)
    (hf : e.failure = some t) :
    (main env).status = .EXIT_FAILURE ∧
      ∃ pre, (main env).trace = pre ++ [e, diagnostic t] ∧ ∀ x ∈ pre, x.failure = none := by
  have hff := failFast_tryBlock env
  cases hr : (tryBlock env).result with
  | ok u =>
    rw [main_of_ok hr] at he
    have := hff.1 u hr e he
    rw [hf] at this
    exact absurd this (by simp)
  | error t2 =>
    obtain ⟨pre, e2, htr, hfail, hpre⟩ := hff.2 t2 hr
    rw [main_of_error hr] at he ⊢
    simp only [htr, List.append_assoc, List.singleton_append, List.mem_append, List.mem_cons,
      List.mem_singleton, List.not_mem_nil, or_false] at he
    have key : e = e2 := by
      rcases he with he | he | he
      · have := hpre e he
        rw [hf] at this
        exact absurd this (by simp)
      · exact he
      · rw [he, diagnostic_failure] at hf
        exact absurd hf (by simp)
    subst key
    rw [hf] at hfail
    simp only [Option.some.injEq] at hfail
    subst hfail
    exact ⟨rfl, pre, by simp [htr], hpre⟩

/-- A failed run ends with a failed call followed by the line of its `catch` clause. -/
theorem main_failure_exists (env : Env) (h : (main env).status = .EXIT_FAILURE) :
    ∃ pre e t, (main env).trace = pre ++ [e, diagnostic t] ∧ e.failure = some t ∧
      ∀ x ∈ pre, x.failure = none := by
  have hff := failFast_tryBlock env
  cases hr : (tryBlock env).result with
  | ok u =>
    rw [main_of_ok hr] at h
    simp at h
  | error t =>
    obtain ⟨pre, e, htr, hfail, hpre⟩ := hff.2 t hr
    rw [main_of_error hr]
    exact ⟨pre, e, t, by simp [htr], hfail, hpre⟩

/-! ## The lines of the `catch` clauses -/

theorem diagnostic_isDiagnostic (t : Thrown) : (diagnostic t).isDiagnostic = true := by
  cases t <;> simp [diagnostic, Event.isDiagnostic, diagnosticOpenings, List.isPrefixOf]

theorem windowCycle_no_diagnostic (env : Env) (window fuel i : Nat) :
    (windowCycle env window fuel i).trace.countP Event.isDiagnostic = 0 := by
  rw [List.countP_eq_zero]
  intro e he
  rcases windowCycle_events env window fuel i e he with ⟨o, rfl⟩ | ⟨o, rfl⟩ <;>
    simp [Event.isDiagnostic]

theorem nameLine_no_diagnostic (names : List String) :
    names.countP (Event.isDiagnostic ∘ nameLine) = 0 := by
  rw [List.countP_eq_zero]
  simp [nameLine, Event.isDiagnostic, diagnosticOpenings, List.isPrefixOf]

theorem layerWarning_no_diagnostic (layers : List String) :
    layers.countP (Event.isDiagnostic ∘ layerWarning) = 0 := by
  rw [List.countP_eq_zero]
  simp [layerWarning, Event.isDiagnostic, diagnosticOpenings, List.isPrefixOf]

/-! ## Failure at initialisation, error reports, exit status -/

/-- C6: when `glfwInit` fails the run consists of the `glfwInit` call and the line
`Exception: Failed to initialize GLFW` on `std::cout`, and returns `EXIT_FAILURE`; no
window, instance or surface is created. -/
theorem C6_init_failure (env : Env) (h : env.glfwInit = false) :
    main env
        = ⟨[.glfwInit false, .write .cout "Exception: Failed to initialize GLFW"],
          .EXIT_FAILURE⟩ ∧
      ∀ e ∈ (main env).trace, ∀ k, e.setupStep = some k → k = 0 := by
  have hm : main env = ⟨[.glfwInit false,
      .write .cout "Exception: Failed to initialize GLFW"], .EXIT_FAILURE⟩ := by
    simp [main, tryBlock, setup, initGlfw_of_false h, Step.bind_eq, Step.andThen, diagnostic]
  refine ⟨hm, ?_⟩
  rw [hm]
  simp [Event.setupStep]

/-- C6 at a run in which `glfwInit` returns false. -/
theorem C6_init_failure_witness :
    envInitFails.glfwInit = false ∧
      main envInitFails
        = ⟨[.glfwInit false, .write .cout "Exception: Failed to initialize GLFW"],
          .EXIT_FAILURE⟩ :=
  ⟨rfl, (C6_init_failure envInitFails rfl).1⟩

/-- C9: a GLFW call made after the callback is registered, during which GLFW reports an
error with description `d`, is the last call of the run: the run ends right after it with
the line `Exception: d` on `std::cout` and `EXIT_FAILURE`.  The report is thrown as a
`tvk::Exception`, the class of the window creation failure. -/
theorem C9_error_notification_escalates (env : Env) (e : Event) (d : String)
    (he : e ∈ (main env).trace) (hd : e.raised = some d) :
    (main env).status = .EXIT_FAILURE ∧
      (∃ pre, (main env).trace = pre ++ [e, .write .cout ("Exception: " ++ d)] ∧
        ∀ x ∈ pre, x.failure = none) ∧
      e.failure = some (.tvkException d) ∧
      (Event.glfwCreateWindow 512 512 "" (.ret 0)).failure
        = some (.tvkException "Failed to create GLFW window") := by
  have hf : e.failure = some (.tvkException d) := by
    cases e <;> simp only [Event.raised, reduceCtorEq] at hd
    all_goals
      rename_i outcome
      cases outcome <;> simp only [Event.raised, Option.some.injEq, reduceCtorEq] at hd
      subst hd
      rfl
  obtain ⟨hs, pre, htr, hpre⟩ := main_failure env e _ he hf
  exact ⟨hs, ⟨pre, htr, hpre⟩, hf, rfl⟩

/-- C9 at a run in which GLFW reports `X11: no display` while creating the window. -/
theorem C9_error_notification_escalates_witness :
    (main envWindowRaises).status = .EXIT_FAILURE ∧
      ∃ pre, (main envWindowRaises).trace
        = pre ++ [.glfwCreateWindow 512 512 "" (.raise "X11: no display"),
            .write .cout ("Exception: " ++ "X11: no display")] ∧
        ∀ x ∈ pre, x.failure = none :=
  have h := C9_error_notification_escalates envWindowRaises
    (.glfwCreateWindow 512 512 "" (.raise "X11: no display")) "X11: no display"
    (by decide) rfl
  ⟨h.1, h.2.1⟩

/-- The number of lines in a run that open like a `catch` clause's line: one when the run
fails, none when it succeeds. -/
theorem main_diagnostic_count (env : Env) :
    (main env).trace.countP Event.isDiagnostic
      = if (main env).status = .EXIT_FAILURE then 1 else 0 := by
  have h := main_shape env
  generalize main env = run at h
  cases h <;>
    simp only [hintedTrace, layersCheckedTrace, extensionsListedTrace, surfaceBoundTrace,
      List.countP_cons, List.countP_append, List.countP_nil, List.countP_map,
      windowCycle_no_diagnostic, nameLine_no_diagnostic, layerWarning_no_diagnostic,
      diagnostic_isDiagnostic] <;>
    simp [Event.isDiagnostic, diagnosticOpenings, List.isPrefixOf]

theorem stepsOf_append (l1 l2 : List Event) : stepsOf (l1 ++ l2) = stepsOf l1 ++ stepsOf l2 := by
  simp [stepsOf]

theorem stepsOf_map_nameLine (names : List String) : stepsOf (names.map nameLine) = [] := by
  simp [stepsOf, nameLine, Event.setupStep]

theorem stepsOf_map_layerWarning (layers : List String) :
    stepsOf (layers.map layerWarning) = [] := by
  simp [stepsOf, layerWarning, Event.setupStep]

theorem stepsOf_diagnostic (t : Thrown) (rest : List Event) :
    stepsOf (diagnostic t :: rest) = stepsOf rest := by
  cases t <;> simp [stepsOf, diagnostic, Event.setupStep]

theorem stepsOf_hintedTrace : stepsOf hintedTrace = [0] := rfl

theorem stepsOf_layersCheckedTrace (env : Env) (window : Nat) (names : List String) :
    stepsOf (layersCheckedTrace env window names) = [0, 1, 2] := by
  simp only [layersCheckedTrace, stepsOf_append, stepsOf_map_nameLine,
    stepsOf_map_layerWarning, stepsOf_hintedTrace]
  rfl

theorem stepsOf_extensionsListedTrace (env : Env) (window : Nat)
    (names available : List String) :
    stepsOf (extensionsListedTrace env window names available) = [0, 1, 2, 3] := by
  simp only [extensionsListedTrace, stepsOf_append, stepsOf_map_nameLine,
    stepsOf_layersCheckedTrace]
  rfl

theorem stepsOf_surfaceBoundTrace (env : Env) (window : Nat)
    (names available required : List String) (inst surface : Nat) :
    stepsOf (surfaceBoundTrace env window names available required inst surface)
      = [0, 1, 2, 3, 4, 5] := by
  simp only [surfaceBoundTrace, stepsOf_append, stepsOf_extensionsListedTrace]
  rfl

theorem stepsOf_windowCycle (env : Env) (window fuel i : Nat) :
    stepsOf (windowCycle env window fuel i).trace
      = List.replicate (windowCycle env window fuel i).trace.length 6 := by
  have h := windowCycle_events env window fuel i
  generalize (windowCycle env window fuel i).trace = l at h
  induction l with
  | nil => rfl
  | cons e rest ih =>
    have he := h e (List.mem_cons_self _ _)
    have hrest := ih (fun x hx => h x (List.mem_cons_of_mem _ hx))
    rcases he with ⟨o, rfl⟩ | ⟨o, rfl⟩ <;>
      simp [stepsOf, Event.setupStep, List.replicate_succ] at hrest ⊢ <;> exact hrest

theorem stepSequence_six (n : Nat) :
    stepSequence 0 (6 + n) = [0, 1, 2, 3, 4, 5] ++ List.replicate n 6 := by
  have h : ∀ m start, 6 ≤ start → stepSequence start m = List.replicate m 6 := by
    intro m
    induction m with
    | zero => intro _ _; rfl
    | succ m ih =>
      intro start hs
      have := ih (start + 1) (by omega)
      simp only [stepSequence, List.range'_succ, List.map_cons, List.replicate_succ] at this ⊢
      rw [this]
      simp [hs]
  have h6 := h n 6 (Nat.le_refl _)
  have : stepSequence 0 (6 + n) = [0, 1, 2, 3, 4, 5] ++ stepSequence 6 n := by
    simp only [stepSequence]
    rw [Nat.add_comm 6 n, ← List.range'_append_1 0 6 n]
    simp [List.range']
  rw [this, h6]

theorem stepSequence_split (l1 l2 : List Nat) (k count : Nat)
    (h : l1 ++ k :: l2 = stepSequence 0 count) : ∀ j, j < k → j ∈ l1 := by
  intro j hj
  have hlen : l1.length + (l2.length + 1) = count := by
    have := congrArg List.length h
    simpa [stepSequence] using this
  have hk : (l1 ++ k :: l2)[l1.length]? = some k := by
    rw [List.getElem?_append_right (Nat.le_refl _)]
    simp
  rw [h] at hk
  have hlt : l1.length < count := by omega
  simp only [stepSequence, List.getElem?_map, List.getElem?_range', hlt, if_true,
    Option.map_some', Option.some.injEq] at hk
  have ht : l1 = (stepSequence 0 count).take l1.length := by
    rw [← h]; simp
  rw [ht]
  simp only [stepSequence, ← List.map_take, List.mem_map]
  refine ⟨j, ?_, by omega⟩
  rw [List.mem_take_iff_getElem]
  refine ⟨j, ?_, ?_⟩
  · simp; omega
  · simp

/-- The setup steps of a run are an initial part of `0, 1, 2, 3, 4, 5, 6, 6, ...`. -/
theorem main_steps (env : Env) : ∃ count, stepsOf (main env).trace = stepSequence 0 count := by
  have h := main_shape env
  generalize main env = run at h
  cases h with
  | initFails => exact ⟨1, rfl⟩
  | clientApiHintRaises => exact ⟨1, rfl⟩
  | decoratedHintRaises => exact ⟨1, rfl⟩
  | createWindowRaises => exact ⟨2, rfl⟩
  | createWindowNull => exact ⟨2, rfl⟩
  | layerQueryThrows window t =>
    refine ⟨3, ?_⟩
    cases t <;> rfl
  | extensionQueryThrows window names t =>
    refine ⟨4, ?_⟩
    simp only [stepsOf_append, stepsOf_layersCheckedTrace]
    cases t <;> rfl
  | requiredExtensionsRaises =>
    refine ⟨4, ?_⟩
    simp only [stepsOf_append, stepsOf_extensionsListedTrace]
    rfl
  | createInstanceFails =>
    refine ⟨5, ?_⟩
    simp only [stepsOf_append, stepsOf_extensionsListedTrace]
    rfl
  | createSurfaceRaises =>
    refine ⟨6, ?_⟩
    simp only [stepsOf_append, stepsOf_extensionsListedTrace]
    rfl
  | createSurfaceFails =>
    refine ⟨6, ?_⟩
    simp only [stepsOf_append, stepsOf_extensionsListedTrace]
    rfl
  | windowCycleRaises window names available required inst surface t =>
    refine ⟨6 + (windowCycle env window 128 0).trace.length, ?_⟩
    simp only [stepsOf_append, stepsOf_surfaceBoundTrace, stepsOf_windowCycle, stepSequence_six]
    cases t <;> simp [stepsOf, diagnostic, Event.setupStep]
  | destroyWindowRaises window =>
    refine ⟨6 + (windowCycle env window 128 0).trace.length, ?_⟩
    simp only [stepsOf_append, stepsOf_surfaceBoundTrace, stepsOf_windowCycle, stepSequence_six]
    simp [stepsOf, Event.setupStep]
  | terminateRaises window =>
    refine ⟨6 + (windowCycle env window 128 0).trace.length, ?_⟩
    simp only [stepsOf_append, stepsOf_surfaceBoundTrace, stepsOf_windowCycle, stepSequence_six]
    simp [stepsOf, Event.setupStep]
  | success window =>
    refine ⟨6 + (windowCycle env window 128 0).trace.length, ?_⟩
    simp only [stepsOf_append, stepsOf_surfaceBoundTrace, stepsOf_windowCycle, stepSequence_six]
    simp [stepsOf, Event.setupStep]

/-- No call made before another call of the run failed. -/
theorem main_before_call (env : Env) (pre post : List Event) (e : Event)
    (h : (main env).trace = pre ++ e :: post) (hcall : ∀ t, e ≠ diagnostic t) :
    ∀ x ∈ pre, x.failure = none := by
  intro x hx
  cases hf : x.failure with
  | none => rfl
  | some t =>
    exfalso
    obtain ⟨_, pre2, htr, hpre2⟩ := main_failure env x t (by rw [h]; simp [hx]) hf
    obtain ⟨p1, p2, rfl⟩ := List.append_of_mem hx
    have hx1 : x ∉ pre2 := fun hmem => by
      have := hpre2 x hmem
      rw [hf] at this
      exact absurd this (by simp)
    have hx2 : x ∉ [diagnostic t] := fun hmem => by
      simp only [List.mem_singleton] at hmem
      rw [hmem, diagnostic_failure] at hf
      exact absurd hf (by simp)
    have heq : pre2 ++ x :: [diagnostic t] = p1 ++ x :: (p2 ++ e :: post) := by
      rw [← htr, h]
      simp
    obtain ⟨_, _, h3⟩ := (List.append_cons_inj_of_not_mem hx1 hx2).1 heq
    cases p2 with
    | nil =>
      simp only [List.nil_append, List.cons.injEq] at h3
      exact hcall t h3.1.symm
    | cons y rest =>
      simp only [List.cons_append, List.cons.injEq] at h3
      have := congrArg List.length h3.2
      simp at this
      omega

/-- After a failed call the run only writes the line of the `catch` clause. -/
theorem main_after_failure (env : Env) (pre post : List Event) (e : Event) (t : Thrown)
    (h : (main env).trace = pre ++ e :: post) (hf : e.failure = some t) :
    post = [diagnostic t] := by
  obtain ⟨_, pre2, htr, hpre2⟩ := main_failure env e t (by rw [h]; simp) hf
  have hx1 : e ∉ pre2 := fun hmem => by
    have := hpre2 e hmem
    rw [hf] at this
    exact absurd this (by simp)
  have hx2 : e ∉ [diagnostic t] := fun hmem => by
    simp only [List.mem_singleton] at hmem
    rw [hmem, diagnostic_failure] at hf
    exact absurd hf (by simp)
  have heq : pre2 ++ e :: [diagnostic t] = pre ++ e :: post := by
    rw [← htr, h]
  exact ((List.append_cons_inj_of_not_mem hx1 hx2).1 heq).2.2.symm

theorem setupStep_diagnostic (t : Thrown) : (diagnostic t).setupStep = none := by
  cases t <;> rfl

/-- C8: the setup steps of a run (subsystem init 0, window creation 1, layer query 2,
extension query 3, connection creation 4, surface creation 5, event loop 6) are an initial
part of `0, 1, 2, 3, 4, 5, 6, 6, ...`: each of the first six at most once, in this order,
none skipped and none retried.  Before a setup step is invoked every earlier step was
invoked and no call failed; after a failed call nothing is invoked, only the line of the
`catch` clause is written.  In particular a surface creation is preceded by a connection
creation that returned success, and a failed connection creation is followed by that
line only. -/
theorem C8_fail_fast_setup (env : Env) :
    (∃ count, stepsOf (main env).trace = stepSequence 0 count) ∧
      (∀ pre e post k, (main env).trace = pre ++ e :: post → e.setupStep = some k →
        (∀ x ∈ pre, x.failure = none) ∧ ∀ j, j < k → ∃ x ∈ pre, x.setupStep = some j) ∧
      (∀ pre e post t, (main env).trace = pre ++ e :: post → e.failure = some t →
        post = [diagnostic t]) ∧
      (∀ pre inst window outcome post,
        (main env).trace = pre ++ .glfwCreateWindowSurface inst window outcome :: post →
        ∃ info layers extensions handle,
          Event.createInstance info layers extensions 0 handle ∈ pre) ∧
      (∀ pre info layers extensions result handle post,
        (main env).trace
          = pre ++ .createInstance info layers extensions result handle :: post →
        result ≠ 0 → post = [.write .cout "Exception: Failed to create Vulkan instance"]) := by
  have hB : ∀ pre e post k, (main env).trace = pre ++ e :: post → e.setupStep = some k →
      (∀ x ∈ pre, x.failure = none) ∧ ∀ j, j < k → ∃ x ∈ pre, x.setupStep = some j := by
    intro pre e post k h hk
    refine ⟨main_before_call env pre post e h (fun t ht => ?_), fun j hj => ?_⟩
    · rw [ht, setupStep_diagnostic] at hk
      exact absurd hk (by simp)
    · obtain ⟨count, hc⟩ := main_steps env
      have hs : stepsOf pre ++ k :: stepsOf post = stepSequence 0 count := by
        rw [← hc, h]
        simp [stepsOf, hk]
      have hmem := stepSequence_split _ _ _ _ hs j hj
      simp only [stepsOf, List.mem_filterMap] at hmem
      exact hmem
  refine ⟨main_steps env, hB, fun pre e post t h hf => main_after_failure env pre post e t h hf,
    ?_, ?_⟩
  · intro pre inst window outcome post h
    obtain ⟨hok, hsteps⟩ := hB pre _ post 5 h rfl
    obtain ⟨x, hx, hx4⟩ := hsteps 4 (by omega)
    have hxf := hok x hx
    cases x <;> simp only [Event.setupStep, Option.some.injEq, reduceCtorEq] at hx4
    all_goals first
      | omega
      | skip
    rename_i info layers extensions result handle
    have hr : result = 0 := by
      by_contra hne
      simp [Event.failure, hne] at hxf
    subst hr
    exact ⟨info, layers, extensions, handle, hx⟩
  · intro pre info layers extensions result handle post h hr
    exact main_after_failure env pre post _
      (.tvkException "Failed to create Vulkan instance") h (by simp [Event.failure, hr])

/-! ## Teardown -/

theorem isTeardown_diagnostic (t : Thrown) : (diagnostic t).isTeardown = false := by
  cases t <;> rfl

theorem windowCycle_not_teardown (env : Env) (window fuel i : Nat) :
    ∀ x ∈ (windowCycle env window fuel i).trace, x.isTeardown = false := by
  intro x hx
  rcases windowCycle_events env window fuel i x hx with ⟨o, rfl⟩ | ⟨o, rfl⟩ <;> rfl

theorem extensionsListedTrace_not_teardown (env : Env) (window : Nat)
    (names available : List String) :
    ∀ x ∈ extensionsListedTrace env window names available, x.isTeardown = false := by
  simp only [extensionsListedTrace, layersCheckedTrace, hintedTrace, List.forall_mem_append,
    List.forall_mem_cons, List.forall_mem_map]
  simp [Event.isTeardown, nameLine, layerWarning]

theorem surfaceBoundTrace_not_teardown (env : Env) (window : Nat)
    (names available required : List String) (inst surface : Nat) :
    ∀ x ∈ surfaceBoundTrace env window names available required inst surface,
      x.isTeardown = false := by
  intro x hx
  simp only [surfaceBoundTrace, List.mem_append, List.mem_cons, List.mem_singleton,
    List.not_mem_nil, or_false] at hx
  rcases hx with hx | rfl | rfl | rfl
  · exact extensionsListedTrace_not_teardown _ _ _ _ x hx
  all_goals rfl

theorem surfaceBoundTrace_no_failure (env : Env) (window : Nat)
    (names available required : List String) (inst surface : Nat) (hw : window ≠ 0) :
    ∀ x ∈ surfaceBoundTrace env window names available required inst surface,
      x.failure = none := by
  cases window with
  | zero => exact absurd rfl hw
  | succ n =>
    simp only [surfaceBoundTrace, extensionsListedTrace, layersCheckedTrace, hintedTrace,
      List.forall_mem_append, List.forall_mem_cons, List.forall_mem_map]
    simp [Event.failure, nameLine, layerWarning]

theorem Env.surfaceBound.window_ne {env : Env} {window : Nat}
    {names available required : List String} {inst surface : Nat}
    (h : env.surfaceBound window names available required inst surface) : window ≠ 0 :=
  h.1.1.2.2.1

/-- Everything before the cleanup, when the cleanup is reached: no destroy call, no failed
call, and the window and the surface were created. -/
theorem beforeCleanup_spec (env : Env) (window : Nat) (names available required : List String)
    (inst surface : Nat) (hw : window ≠ 0)
    (hl : (windowCycle env window 128 0).result = .ok ()) :
    (∀ x ∈ surfaceBoundTrace env window names available required inst surface
        ++ (windowCycle env window 128 0).trace, x.isTeardown = false ∧ x.failure = none) ∧
      Event.glfwCreateWindow 512 512 "" (.ret window)
        ∈ surfaceBoundTrace env window names available required inst surface
          ++ (windowCycle env window 128 0).trace ∧
      Event.glfwCreateWindowSurface inst window (.ret (0, surface))
        ∈ surfaceBoundTrace env window names available required inst surface
          ++ (windowCycle env window 128 0).trace := by
  refine ⟨fun x hx => ?_, ?_, ?_⟩
  · simp only [List.mem_append] at hx
    rcases hx with hx | hx
    · exact ⟨surfaceBoundTrace_not_teardown _ _ _ _ _ _ _ x hx,
        surfaceBoundTrace_no_failure _ _ _ _ _ _ _ hw x hx⟩
    · exact ⟨windowCycle_not_teardown _ _ _ _ x hx,
        (failFast_windowCycle env window 128 0).1 () hl x hx⟩
  · simp [surfaceBoundTrace, extensionsListedTrace, layersCheckedTrace]
  · simp [surfaceBoundTrace]

/-- A run either fails without any destroy call or reaches the cleanup. -/
theorem main_teardown_cases (env : Env) :
    ((main env).status = .EXIT_FAILURE ∧ ∀ x ∈ (main env).trace, x.isTeardown = false)
      ∨ (main env).cleansUp := by
  have h := main_shape env
  generalize main env = run at h
  cases h with
  | destroyWindowRaises window names available required inst surface d hb hl hr =>
    obtain ⟨h1, h2, h3⟩ := beforeCleanup_spec env window names available required inst
      surface hb.window_ne hl
    exact Or.inr ⟨_, window, inst, surface, h1, h2, h3, Or.inl ⟨d, rfl⟩⟩
  | terminateRaises window names available required inst surface d hb hl hd hr =>
    obtain ⟨h1, h2, h3⟩ := beforeCleanup_spec env window names available required inst
      surface hb.window_ne hl
    exact Or.inr ⟨_, window, inst, surface, h1, h2, h3, Or.inr (Or.inl ⟨d, rfl⟩)⟩
  | success window names available required inst surface hb hl hd ht =>
    obtain ⟨h1, h2, h3⟩ := beforeCleanup_spec env window names available required inst
      surface hb.window_ne hl
    exact Or.inr ⟨_, window, inst, surface, h1, h2, h3, Or.inr (Or.inr rfl)⟩
  | windowCycleRaises window names available required inst surface t2 hb hr =>
    refine Or.inl ⟨rfl, fun x hx => ?_⟩
    simp only [List.mem_append, List.mem_singleton] at hx
    rcases hx with (hx | hx) | rfl
    · exact surfaceBoundTrace_not_teardown _ _ _ _ _ _ _ x hx
    · exact windowCycle_not_teardown _ _ _ _ x hx
    · exact isTeardown_diagnostic t2
  | initFails => exact Or.inl ⟨rfl, by simp [Event.isTeardown]⟩
  | clientApiHintRaises => exact Or.inl ⟨rfl, by simp [Event.isTeardown]⟩
  | decoratedHintRaises => exact Or.inl ⟨rfl, by simp [Event.isTeardown]⟩
  | createWindowRaises => exact Or.inl ⟨rfl, by simp [hintedTrace, Event.isTeardown]⟩
  | createWindowNull => exact Or.inl ⟨rfl, by simp [hintedTrace, Event.isTeardown]⟩
  | layerQueryThrows window t2 =>
    refine Or.inl ⟨rfl, ?_⟩
    simp only [hintedTrace, List.forall_mem_append, List.forall_mem_cons,
      isTeardown_diagnostic]
    simp [Event.isTeardown]
  | extensionQueryThrows window names t2 =>
    refine Or.inl ⟨rfl, ?_⟩
    simp only [layersCheckedTrace, hintedTrace, List.forall_mem_append, List.forall_mem_cons,
      List.forall_mem_map, isTeardown_diagnostic]
    simp [Event.isTeardown, nameLine, layerWarning]
  | requiredExtensionsRaises window names available =>
    refine Or.inl ⟨rfl, ?_⟩
    simp only [List.forall_mem_append, List.forall_mem_cons]
    exact ⟨extensionsListedTrace_not_teardown env window names available,
      by simp [Event.isTeardown]⟩
  | createInstanceFails window names available =>
    refine Or.inl ⟨rfl, ?_⟩
    simp only [List.forall_mem_append, List.forall_mem_cons]
    exact ⟨extensionsListedTrace_not_teardown env window names available,
      by simp [Event.isTeardown]⟩
  | createSurfaceRaises window names available =>
    refine Or.inl ⟨rfl, ?_⟩
    simp only [List.forall_mem_append, List.forall_mem_cons]
    exact ⟨extensionsListedTrace_not_teardown env window names available,
      by simp [Event.isTeardown]⟩
  | createSurfaceFails window names available =>
    refine Or.inl ⟨rfl, ?_⟩
    simp only [List.forall_mem_append, List.forall_mem_cons]
    exact ⟨extensionsListedTrace_not_teardown env window names available,
      by simp [Event.isTeardown]⟩

/-- In a run that reaches the cleanup, every call that is not a destroy call succeeded. -/
theorem Run.cleansUp.no_setup_failure {run : Run} (h : run.cleansUp) (e : Event)
    (he : e ∈ run.trace) (hsetup : e.isTeardown = false) : e.failure = none := by
  obtain ⟨pre, window, inst, surface, hpre, _, _, hrun⟩ := h
  rcases hrun with ⟨d, rfl⟩ | ⟨d, rfl⟩ | rfl
  all_goals
    simp only [List.mem_append, List.mem_cons, List.mem_singleton, List.not_mem_nil,
      or_false] at he
    rcases he with he | he
    · exact (hpre e he).2
    · rcases he with rfl | rfl | rfl | he
      · simp [Event.isTeardown] at hsetup
      · simp [Event.isTeardown] at hsetup
      · simp [Event.isTeardown] at hsetup
      · first
          | (subst he; rfl)
          | (rcases he with rfl | rfl
             · simp [Event.isTeardown] at hsetup
             · rfl)

/-- C1 (as the code has it): when a call other than a destroy call fails, the run contains
no destroy call at all, the failed call is its last call, followed only by the line of the
`catch` clause receiving what was thrown, which is the one line of the run that opens like
a `catch` clause's line, and `main` returns `EXIT_FAILURE`.  In particular that line is
`Exception: Failed to create Vulkan instance` when connection creation returns a failure
status, `Exception: Failed to create window surface` when surface creation does,
`Exception: Failed to create GLFW window` when the window is null, and
`vk::SystemError: ` with the message when a driver query throws a `vk::SystemError`.  The
cleanup of lines 101-105 is reached only when every earlier call succeeded, and the
`catch` clauses destroy nothing. -/
theorem C1_no_teardown_after_failed_setup (env : Env) (e : Event) (t : Thrown)
    (he : e ∈ (main env).trace) (hsetup : e.isTeardown = false) (hf : e.failure = some t) :
    (main env).status = .EXIT_FAILURE ∧
      (∀ x ∈ (main env).trace, x.isTeardown = false) ∧
      (∃ pre, (main env).trace = pre ++ [e, diagnostic t] ∧
        ∀ x ∈ pre, x.failure = none ∧ x.isTeardown = false) ∧
      (main env).trace.countP Event.isDiagnostic = 1 ∧
      (∀ info layers extensions result handle,
        e = .createInstance info layers extensions result handle →
        (main env).trace.getLast?
          = some (.write .cout "Exception: Failed to create Vulkan instance")) ∧
      (∀ inst window result surface,
        e = .glfwCreateWindowSurface inst window (.ret (result, surface)) →
        (main env).trace.getLast?
          = some (.write .cout "Exception: Failed to create window surface")) ∧
      (∀ width height title, e = .glfwCreateWindow width height title (.ret 0) →
        (main env).trace.getLast?
          = some (.write .cout "Exception: Failed to create GLFW window")) ∧
      (∀ what, e = .enumerateInstanceLayerProperties (.systemError what)
          ∨ e = .enumerateInstanceExtensionProperties (.systemError what) →
        (main env).trace.getLast? = some (.write .cerr ("vk::SystemError: " ++ what))) := by
  have hno : ∀ x ∈ (main env).trace, x.isTeardown = false := by
    rcases main_teardown_cases env with h | h
    · exact h.2
    · have := h.no_setup_failure e he hsetup
      rw [hf] at this
      exact absurd this (by simp)
  obtain ⟨hstatus, pre, htr, hpre⟩ := main_failure env e t he hf
  have hlast : (main env).trace.getLast? = some (diagnostic t) := by
    rw [htr]
    simp
  have hcount : (main env).trace.countP Event.isDiagnostic = 1 := by
    rw [main_diagnostic_count, hstatus]
    simp
  refine ⟨hstatus, hno, ⟨pre, htr, fun x hx => ⟨hpre x hx, hno x (by rw [htr]; simp [hx])⟩⟩,
    hcount, ?_, ?_, ?_, ?_⟩
  · intro info layers extensions result handle heq
    subst heq
    by_cases hr : result = 0
    · simp [Event.failure, hr] at hf
    · simp only [Event.failure, hr, if_false, Option.some.injEq] at hf
      rw [hlast, ← hf]
      rfl
  · intro inst window result surface heq
    subst heq
    by_cases hr : result = 0
    · simp [Event.failure, hr] at hf
    · simp only [Event.failure, hr, if_false, Option.some.injEq] at hf
      rw [hlast, ← hf]
      rfl
  · intro width height title heq
    subst heq
    simp only [Event.failure, Option.some.injEq] at hf
    rw [hlast, ← hf]
    rfl
  · intro what heq
    rcases heq with heq | heq
    all_goals
      subst heq
      simp only [Event.failure, Option.some.injEq] at hf
      rw [hlast, ← hf]
      rfl

/-- C1 (as the code has it) at a run in which the surface creation returns a failure code
after the instance was created: nothing is destroyed, and the run ends with the line
`Exception: Failed to create window surface` and `EXIT_FAILURE`. -/
theorem C1_no_teardown_after_failed_setup_witness :
    (main envSurfaceFails).status = .EXIT_FAILURE ∧
      (∀ x ∈ (main envSurfaceFails).trace, x.isTeardown = false) ∧
      (main envSurfaceFails).trace.countP Event.isDiagnostic = 1 ∧
      (main envSurfaceFails).trace.getLast?
        = some (.write .cout "Exception: Failed to create window surface") :=
  have h := C1_no_teardown_after_failed_setup envSurfaceFails
    (.glfwCreateWindowSurface 2 1 (.ret (-7, 0)))
    (.tvkException "Failed to create window surface") (by decide) rfl (by decide)
  ⟨h.1, h.2.1, h.2.2.2.1, h.2.2.2.2.2.1 2 1 (-7) 0 rfl⟩

/-- C1 fails as stated: when `vk::createInstance` returns `VK_ERROR_INCOMPATIBLE_DRIVER`
after the window was created, the run ends with the `catch` clause's line; neither
`glfwDestroyWindow` nor `glfwTerminate` nor any other destroy call is made. -/
theorem C1_counterexample :
    main envConnectionFails
        = ⟨[.glfwInit true, .glfwSetErrorCallback,
            .glfwWindowHint .GLFW_CLIENT_API .GLFW_NO_API (.ret ()),
            .glfwWindowHint .GLFW_DECORATED .GLFW_FALSE (.ret ()),
            .glfwCreateWindow 512 512 "" (.ret 1),
            .enumerateInstanceLayerProperties (.ret ["VK_LAYER_KHRONOS_validation"]),
            .write .cout "Available layers",
            .write .cout "- VK_LAYER_KHRONOS_validation",
            .write .cout "Available extensions",
            .enumerateInstanceExtensionProperties (.ret ["VK_KHR_surface"]),
            .write .cout "- VK_KHR_surface",
            .glfwGetRequiredInstanceExtensions (.ret ["ext_surface", "ext_platform_surface"]),
            .createInstance appInfo ["VK_LAYER_KHRONOS_validation"]
              ["ext_surface", "ext_platform_surface"] (-9) 0,
            .write .cout "Exception: Failed to create Vulkan instance"],
          .EXIT_FAILURE⟩ ∧
      (main envConnectionFails).trace.countP Event.isTeardown = 0 ∧
      (main envSurfaceFails).trace.countP Event.isTeardown = 0 := by
  decide

theorem filter_isTeardown_eq_nil {l : List Event} (h : ∀ x ∈ l, x.isTeardown = false) :
    l.filter Event.isTeardown = [] := by
  rw [List.filter_eq_nil_iff]
  intro x hx
  simp [h x hx]

/-- The destroy calls of a run that reaches the cleanup. -/
theorem Run.cleansUp.destroy_calls {run : Run} (h : run.cleansUp) :
    (∃ window inst surface d, run.trace.filter Event.isTeardown
        = [.destroySurfaceKHR inst surface, .instanceDestroy inst,
            .glfwDestroyWindow window (.raise d)]) ∨
      ∃ window inst surface outcome, run.trace.filter Event.isTeardown
        = [.destroySurfaceKHR inst surface, .instanceDestroy inst,
            .glfwDestroyWindow window (.ret ()), .glfwTerminate outcome] := by
  obtain ⟨pre, window, inst, surface, hpre, _, _, hrun⟩ := h
  have hnil := filter_isTeardown_eq_nil (fun x hx => (hpre x hx).1)
  rcases hrun with ⟨d, rfl⟩ | ⟨d, rfl⟩ | rfl
  · exact Or.inl ⟨window, inst, surface, d, by simp [List.filter_append, hnil, List.filter,
      Event.isTeardown]⟩
  · exact Or.inr ⟨window, inst, surface, .raise d, by simp [List.filter_append, hnil,
      List.filter, Event.isTeardown]⟩
  · exact Or.inr ⟨window, inst, surface, .ret (), by simp [List.filter_append, hnil,
      List.filter, Event.isTeardown]⟩

/-- C2 (as the code has it): the destroy calls of a run are, in this order,
`destroySurfaceKHR`, `instance.destroy`, `glfwDestroyWindow`, `glfwTerminate`, each once,
or these without `glfwTerminate` when GLFW reports an error while destroying the window,
or none at all.  When there are any, they end the run (only the `catch` clause's line can
follow), they come after every other call, the window cycle included, and they destroy the
surface, instance and window created before.  A run in which no other call fails makes
them. -/
theorem C2_destroy_calls_in_order (env : Env) :
    ((main env).trace.filter Event.isTeardown = [] ∨
        (∃ window inst surface d, (main env).trace.filter Event.isTeardown
          = [.destroySurfaceKHR inst surface, .instanceDestroy inst,
              .glfwDestroyWindow window (.raise d)]) ∨
        ∃ window inst surface outcome, (main env).trace.filter Event.isTeardown
          = [.destroySurfaceKHR inst surface, .instanceDestroy inst,
              .glfwDestroyWindow window (.ret ()), .glfwTerminate outcome]) ∧
      ((main env).trace.filter Event.isTeardown ≠ [] → (main env).cleansUp) ∧
      ((∀ e ∈ (main env).trace, e.isTeardown = false → e.failure = none) →
        (main env).cleansUp) := by
  rcases main_teardown_cases env with h | h
  · have hnil := filter_isTeardown_eq_nil h.2
    refine ⟨Or.inl hnil, fun hne => absurd hnil hne, fun hall => ?_⟩
    obtain ⟨pre, e, t, htr, hfail, _⟩ := main_failure_exists env h.1
    have he : e ∈ (main env).trace := by rw [htr]; simp
    have := hall e he (h.2 e he)
    rw [hfail] at this
    exact absurd this (by simp)
  · exact ⟨Or.inr h.destroy_calls, fun _ => h, fun _ => h⟩

/-- C2 fails as stated: in this run every call up to the cleanup succeeds, the window
closes after two polls, and GLFW reports an error while destroying the window; the destroy
calls made are `destroySurfaceKHR`, `instance.destroy`, `glfwDestroyWindow`, three and
not four, and `glfwTerminate` is not among them. -/
theorem C2_counterexample :
    (main envDestroyWindowRaises).trace.filter Event.isTeardown
        = [.destroySurfaceKHR 2 3, .instanceDestroy 2,
            .glfwDestroyWindow 1 (.raise "platform error")] ∧
      (main envDestroyWindowRaises).trace.countP Event.isTerminate = 0 ∧
      (main envDestroyWindowRaises).trace.countP Event.isPoll = 2 ∧
      ∀ e ∈ (main envDestroyWindowRaises).trace, e.isTeardown = false → e.failure = none := by
  decide

/-- C10 (as the code has it): when GLFW reports an error with description `d` while
destroying the window, `glfwTerminate` is not called: the run ends with
`destroySurfaceKHR`, `instance.destroy`, the `glfwDestroyWindow` call and the line
`Exception: d` on `std::cout`, and returns `EXIT_FAILURE`. -/
theorem C10_teardown_cut_short (env : Env) (window : Nat) (d : String)
    (he : Event.glfwDestroyWindow window (.raise d) ∈ (main env).trace) :
    (main env).trace.countP Event.isTerminate = 0 ∧
      (main env).status = .EXIT_FAILURE ∧
      ∃ pre inst surface,
        (main env).trace = pre ++ [.destroySurfaceKHR inst surface, .instanceDestroy inst,
          .glfwDestroyWindow window (.raise d), .write .cout ("Exception: " ++ d)] ∧
        ∀ x ∈ pre, x.isTeardown = false := by
  rcases main_teardown_cases env with h | h
  · have := h.2 _ he
    simp [Event.isTeardown] at this
  · obtain ⟨pre, window2, inst, surface, hpre, _, _, hrun⟩ := h
    have hnot : Event.glfwDestroyWindow window (.raise d) ∉ pre := fun hmem => by
      have := (hpre _ hmem).1
      simp [Event.isTeardown] at this
    have hterm : pre.countP Event.isTerminate = 0 := by
      rw [List.countP_eq_zero]
      intro x hx
      have := (hpre x hx).1
      cases x <;> simp_all [Event.isTeardown, Event.isTerminate]
    rcases hrun with ⟨d2, hrun⟩ | ⟨d2, hrun⟩ | hrun
    · rw [hrun] at he ⊢
      simp only [List.mem_append, List.mem_cons, List.mem_singleton, List.not_mem_nil,
        or_false, reduceCtorEq, false_or, Event.glfwDestroyWindow.injEq, Glfw.raise.injEq,
        hnot] at he
      obtain ⟨rfl, rfl⟩ := he
      refine ⟨?_, rfl, pre, inst, surface, rfl, fun x hx => (hpre x hx).1⟩
      simp [List.countP_append, hterm, List.countP_cons, Event.isTerminate]
    · rw [hrun] at he
      simp [hnot] at he
    · rw [hrun] at he
      simp [hnot] at he

/-- C10 (as the code has it) at a run in which GLFW reports an error while destroying the
window. -/
theorem C10_teardown_cut_short_witness :
    (main envTeardownInterrupted).trace.countP Event.isTerminate = 0 ∧
      (main envTeardownInterrupted).status = .EXIT_FAILURE :=
  have h := C10_teardown_cut_short envTeardownInterrupted 1 "window already destroyed"
    (by decide)
  ⟨h.1, h.2.1⟩

/-- C10 fails as stated: in this run the cleanup is reached and GLFW reports an error
while destroying the window; `glfwTerminate` is never called, and the run ends with the
`catch` clause's line right after the `glfwDestroyWindow` call. -/
theorem C10_counterexample :
    main envTeardownInterrupted
        = ⟨[.glfwInit true, .glfwSetErrorCallback,
            .glfwWindowHint .GLFW_CLIENT_API .GLFW_NO_API (.ret ()),
            .glfwWindowHint .GLFW_DECORATED .GLFW_FALSE (.ret ()),
            .glfwCreateWindow 512 512 "" (.ret 1),
            .enumerateInstanceLayerProperties (.ret ["VK_LAYER_KHRONOS_validation"]),
            .write .cout "Available layers",
            .write .cout "- VK_LAYER_KHRONOS_validation",
            .write .cout "Available extensions",
            .enumerateInstanceExtensionProperties (.ret ["VK_KHR_surface"]),
            .write .cout "- VK_KHR_surface",
            .glfwGetRequiredInstanceExtensions (.ret ["ext_surface", "ext_platform_surface"]),
            .createInstance appInfo ["VK_LAYER_KHRONOS_validation"]
              ["ext_surface", "ext_platform_surface"] 0 2,
            .glfwCreateWindowSurface 2 1 (.ret (0, 3)),
            .glfwWindowShouldClose 1 (.ret true),
            .destroySurfaceKHR 2 3, .instanceDestroy 2,
            .glfwDestroyWindow 1 (.raise "window already destroyed"),
            .write .cout "Exception: window already destroyed"],
          .EXIT_FAILURE⟩ ∧
      (main envTeardownInterrupted).trace.countP Event.isTerminate = 0 := by
  decide

/-! ## Layers and extensions -/

theorem isLayerWarning_diagnostic (t : Thrown) : (diagnostic t).isLayerWarning = false := by
  cases t <;> simp [diagnostic, Event.isLayerWarning, List.isPrefixOf]

theorem filter_isLayerWarning_windowCycle (env : Env) (window fuel i : Nat) :
    (windowCycle env window fuel i).trace.filter Event.isLayerWarning = [] := by
  rw [List.filter_eq_nil_iff]
  intro x hx
  rcases windowCycle_events env window fuel i x hx with ⟨o, rfl⟩ | ⟨o, rfl⟩ <;>
    simp [Event.isLayerWarning]

theorem filter_isLayerWarning_nameLine (names : List String) :
    (names.map nameLine).filter Event.isLayerWarning = [] := by
  rw [List.filter_eq_nil_iff]
  simp [nameLine, Event.isLayerWarning]

theorem filter_isLayerWarning_layerWarning (layers : List String) :
    (layers.map layerWarning).filter Event.isLayerWarning = layers.map layerWarning := by
  rw [List.filter_eq_self]
  simp [layerWarning, Event.isLayerWarning, List.isPrefixOf]

theorem filter_isLayerWarning_layersCheckedTrace (env : Env) (window : Nat)
    (names : List String) :
    (layersCheckedTrace env window names).filter Event.isLayerWarning
      = (missingOf names).map layerWarning := by
  simp only [layersCheckedTrace, hintedTrace, List.filter_append,
    filter_isLayerWarning_nameLine, filter_isLayerWarning_layerWarning]
  simp [List.filter, Event.isLayerWarning]

theorem filter_isLayerWarning_extensionsListedTrace (env : Env) (window : Nat)
    (names available : List String) :
    (extensionsListedTrace env window names available).filter Event.isLayerWarning
      = (missingOf names).map layerWarning := by
  simp only [extensionsListedTrace, List.filter_append,
    filter_isLayerWarning_layersCheckedTrace, filter_isLayerWarning_nameLine]
  simp [List.filter, Event.isLayerWarning]

theorem filter_isLayerWarning_surfaceBoundTrace (env : Env) (window : Nat)
    (names available required : List String) (inst surface : Nat) :
    (surfaceBoundTrace env window names available required inst surface).filter
        Event.isLayerWarning
      = (missingOf names).map layerWarning := by
  simp only [surfaceBoundTrace, List.filter_append,
    filter_isLayerWarning_extensionsListedTrace]
  simp [List.filter, Event.isLayerWarning]

theorem Env.layersChecked.sameLayers {env : Env} {window window2 : Nat}
    {names names2 : List String} (h : env.layersChecked window names)
    (h2 : env.layersChecked window2 names2) : window2 = window ∧ names2 = names := by
  obtain ⟨_, h3, _, h4⟩ := h
  obtain ⟨_, h3b, _, h4b⟩ := h2
  rw [h3] at h3b
  rw [h4] at h4b
  simp only [Glfw.ret.injEq, Vk.ret.injEq] at h3b h4b
  exact ⟨h3b.symm, h4b.symm⟩

theorem Env.extensionsKnown.sameExtensions {env : Env} {window window2 : Nat}
    {names names2 available available2 required required2 : List String}
    (h : env.extensionsKnown window names available required)
    (h2 : env.extensionsKnown window2 names2 available2 required2) :
    window2 = window ∧ names2 = names ∧ available2 = available ∧ required2 = required := by
  obtain ⟨hl, h5, h6⟩ := h
  obtain ⟨hlb, h5b, h6b⟩ := h2
  obtain ⟨hw, hn⟩ := hl.sameLayers hlb
  rw [h5] at h5b
  rw [h6] at h6b
  simp only [Glfw.ret.injEq, Vk.ret.injEq] at h5b h6b
  exact ⟨hw, hn, h5b.symm, h6b.symm⟩

/-- A run in which the layer query is reached and reports `names`: the warning lines are
those of the requested layers that are not reported, one each and in the order requested,
and the extension query is called. -/
theorem main_of_layersChecked (env : Env) (window : Nat) (names : List String)
    (hl : env.layersChecked window names) :
    (main env).trace.filter Event.isLayerWarning = (missingOf names).map layerWarning ∧
      Event.enumerateInstanceExtensionProperties env.enumerateInstanceExtensionProperties
        ∈ (main env).trace := by
  have h := main_shape env
  generalize main env = run at h
  have h0 := hl.1.1
  have h1 := hl.1.2.1
  have h2 := hl.1.2.2
  have h3 := hl.2.1
  have hw := hl.2.2.1
  have h4 := hl.2.2.2
  cases h with
  | initFails h => rw [h0] at h; exact absurd h (by simp)
  | clientApiHintRaises d _ hr => rw [h1] at hr; exact absurd hr (by simp)
  | decoratedHintRaises d _ _ hr => rw [h2] at hr; exact absurd hr (by simp)
  | createWindowRaises d _ hr => rw [h3] at hr; exact absurd hr (by simp)
  | createWindowNull _ hr =>
    rw [h3] at hr
    simp only [Glfw.ret.injEq] at hr
    exact absurd hr hw
  | layerQueryThrows window2 t _ _ _ hr =>
    rw [h4] at hr
    simp [Vk.thrown] at hr
  | extensionQueryThrows window2 names2 t hl2 hr =>
    obtain ⟨rfl, rfl⟩ := hl.sameLayers hl2
    simp only [List.filter_append, filter_isLayerWarning_layersCheckedTrace,
      List.filter_cons, List.filter_nil, isLayerWarning_diagnostic]
    simp [Event.isLayerWarning]
  | requiredExtensionsRaises window2 names2 available d hl2 ha hr =>
    obtain ⟨rfl, rfl⟩ := hl.sameLayers hl2
    simp only [List.filter_append, filter_isLayerWarning_extensionsListedTrace]
    simp [List.filter, Event.isLayerWarning, extensionsListedTrace, ha]
  | createInstanceFails window2 names2 available required hk hr =>
    obtain ⟨rfl, rfl⟩ := hl.sameLayers hk.1
    simp only [List.filter_append, filter_isLayerWarning_extensionsListedTrace]
    simp [List.filter, Event.isLayerWarning, extensionsListedTrace, hk.2.1]
  | createSurfaceRaises window2 names2 available required d hk hi hr =>
    obtain ⟨rfl, rfl⟩ := hl.sameLayers hk.1
    simp only [List.filter_append, filter_isLayerWarning_extensionsListedTrace]
    simp [List.filter, Event.isLayerWarning, extensionsListedTrace, hk.2.1]
  | createSurfaceFails window2 names2 available required result surface hk hi hs hr =>
    obtain ⟨rfl, rfl⟩ := hl.sameLayers hk.1
    simp only [List.filter_append, filter_isLayerWarning_extensionsListedTrace]
    simp [List.filter, Event.isLayerWarning, extensionsListedTrace, hk.2.1]
  | windowCycleRaises window2 names2 available required inst surface t hb hr =>
    obtain ⟨rfl, rfl⟩ := hl.sameLayers hb.1.1
    simp only [List.filter_append, filter_isLayerWarning_surfaceBoundTrace,
      filter_isLayerWarning_windowCycle]
    simp [List.filter, isLayerWarning_diagnostic, surfaceBoundTrace, extensionsListedTrace,
      hb.1.2.1]
  | destroyWindowRaises window2 names2 available required inst surface d hb hl2 hr =>
    obtain ⟨rfl, rfl⟩ := hl.sameLayers hb.1.1
    simp only [List.filter_append, filter_isLayerWarning_surfaceBoundTrace,
      filter_isLayerWarning_windowCycle]
    simp [List.filter, Event.isLayerWarning, surfaceBoundTrace, extensionsListedTrace,
      hb.1.2.1]
  | terminateRaises window2 names2 available required inst surface d hb hl2 hd hr =>
    obtain ⟨rfl, rfl⟩ := hl.sameLayers hb.1.1
    simp only [List.filter_append, filter_isLayerWarning_surfaceBoundTrace,
      filter_isLayerWarning_windowCycle]
    simp [List.filter, Event.isLayerWarning, surfaceBoundTrace, extensionsListedTrace,
      hb.1.2.1]
  | success window2 names2 available required inst surface hb hl2 hd ht =>
    obtain ⟨rfl, rfl⟩ := hl.sameLayers hb.1.1
    simp only [List.filter_append, filter_isLayerWarning_surfaceBoundTrace,
      filter_isLayerWarning_windowCycle]
    simp [List.filter, Event.isLayerWarning, surfaceBoundTrace, extensionsListedTrace,
      hb.1.2.1]

theorem windowCycle_setupStep (env : Env) (window fuel i : Nat) (e : Event)
    (he : e ∈ (windowCycle env window fuel i).trace) : e.setupStep = some 6 := by
  rcases windowCycle_events env window fuel i e he with ⟨o, rfl⟩ | ⟨o, rfl⟩ <;> rfl

/-- Where a `vk::createInstance` call of a run gets its arguments from. -/
theorem main_createInstance (env : Env) (info : ApplicationInfo)
    (layers extensions : List String) (result : Int) (handle : Nat)
    (he : Event.createInstance info layers extensions result handle ∈ (main env).trace) :
    ∃ window names available, env.extensionsKnown window names available extensions ∧
      info = appInfo ∧ layers = enabledOf names ∧ (result, handle) = env.createInstance := by
  have h := main_shape env
  revert he
  generalize main env = run at h
  intro he
  have hloop : ∀ window, Event.createInstance info layers extensions result handle
      ∉ (windowCycle env window 128 0).trace := fun window hmem => by
    have := windowCycle_setupStep env window 128 0 _ hmem
    simp [Event.setupStep] at this
  cases h <;>
    simp only [surfaceBoundTrace, extensionsListedTrace, layersCheckedTrace, hintedTrace,
      List.mem_append, List.mem_cons, List.mem_map, List.mem_singleton, List.not_mem_nil,
      nameLine, layerWarning, reduceCtorEq, or_false, false_or, and_false, exists_false,
      Event.createInstance.injEq, hloop] at he
  case layerQueryThrows window t _ _ _ _ => cases t <;> simp [diagnostic] at he
  case extensionQueryThrows window names t _ _ => cases t <;> simp [diagnostic] at he
  case createInstanceFails window names available required hk hr =>
    obtain ⟨rfl, rfl, rfl, rfl, rfl⟩ := he
    exact ⟨window, names, available, hk, rfl, rfl, rfl⟩
  case createSurfaceRaises window names available required d hk hi hr =>
    obtain ⟨rfl, rfl, rfl, rfl, rfl⟩ := he
    exact ⟨window, names, available, hk, rfl, rfl, Prod.ext hi.symm rfl⟩
  case createSurfaceFails window names available required res surface hk hi hs hr =>
    obtain ⟨rfl, rfl, rfl, rfl, rfl⟩ := he
    exact ⟨window, names, available, hk, rfl, rfl, Prod.ext hi.symm rfl⟩
  case windowCycleRaises window names available required inst surface t hb hr =>
    rcases he with ⟨rfl, rfl, rfl, rfl, rfl⟩ | he
    · exact ⟨window, names, available, hb.1, rfl, rfl, hb.2.1.symm⟩
    · cases t <;> simp [diagnostic] at he
  case destroyWindowRaises window names available required inst surface d hb hl hr =>
    obtain ⟨rfl, rfl, rfl, rfl, rfl⟩ := he
    exact ⟨window, names, available, hb.1, rfl, rfl, hb.2.1.symm⟩
  case terminateRaises window names available required inst surface d hb hl hd hr =>
    obtain ⟨rfl, rfl, rfl, rfl, rfl⟩ := he
    exact ⟨window, names, available, hb.1, rfl, rfl, hb.2.1.symm⟩
  case success window names available required inst surface hb hl hd ht =>
    obtain ⟨rfl, rfl, rfl, rfl, rfl⟩ := he
    exact ⟨window, names, available, hb.1, rfl, rfl, hb.2.1.symm⟩

/-- A layer query that occurs in a run was reached with the window created. -/
theorem main_layerQuery (env : Env) (names : List String)
    (he : Event.enumerateInstanceLayerProperties (.ret names) ∈ (main env).trace) :
    ∃ window, env.layersChecked window names := by
  have h := main_shape env
  revert he
  generalize main env = run at h
  intro he
  have hloop : ∀ window, Event.enumerateInstanceLayerProperties (.ret names)
      ∉ (windowCycle env window 128 0).trace := fun window hmem => by
    have := windowCycle_setupStep env window 128 0 _ hmem
    simp [Event.setupStep] at this
  cases h <;>
    simp only [surfaceBoundTrace, extensionsListedTrace, layersCheckedTrace, hintedTrace,
      List.mem_append, List.mem_cons, List.mem_map, List.mem_singleton, List.not_mem_nil,
      nameLine, layerWarning, reduceCtorEq, or_false, false_or, and_false, exists_false,
      Event.enumerateInstanceLayerProperties.injEq, Vk.ret.injEq, or_self, hloop] at he
  case layerQueryThrows window t hh hw hw0 hr =>
    rcases he with he | he
    · rw [← he] at hr
      simp [Vk.thrown] at hr
    · cases t <;> simp [diagnostic] at he
  case extensionQueryThrows window names2 t hl hr =>
    rcases he with rfl | he
    · exact ⟨window, hl⟩
    · cases t <;> simp [diagnostic] at he
  case requiredExtensionsRaises window names2 available d hl ha hr =>
    subst he
    exact ⟨window, hl⟩
  case createInstanceFails window names2 available required hk hr =>
    subst he
    exact ⟨window, hk.1⟩
  case createSurfaceRaises window names2 available required d hk hi hr =>
    subst he
    exact ⟨window, hk.1⟩
  case createSurfaceFails window names2 available required res surface hk hi hs hr =>
    subst he
    exact ⟨window, hk.1⟩
  case windowCycleRaises window names2 available required inst surface t hb hr =>
    rcases he with rfl | he
    · exact ⟨window, hb.1.1⟩
    · cases t <;> simp [diagnostic] at he
  case destroyWindowRaises window names2 available required inst surface d hb hl hr =>
    subst he
    exact ⟨window, hb.1.1⟩
  case terminateRaises window names2 available required inst surface d hb hl hd hr =>
    subst he
    exact ⟨window, hb.1.1⟩
  case success window names2 available required inst surface hb hl hd ht =>
    subst he
    exact ⟨window, hb.1.1⟩

/-- A run in which both queries and `glfwGetRequiredInstanceExtensions` succeed calls
`vk::createInstance` with the enabled layers and the required extensions. -/
theorem main_of_extensionsKnown (env : Env) (window : Nat)
    (names available required : List String)
    (hk : env.extensionsKnown window names available required) :
    Event.createInstance appInfo (enabledOf names) required env.createInstance.1
        env.createInstance.2 ∈ (main env).trace ∧
      Event.glfwGetRequiredInstanceExtensions (.ret required) ∈ (main env).trace := by
  have h := main_shape env
  generalize main env = run at h
  have h0 := hk.1.1.1
  have h1 := hk.1.1.2.1
  have h2 := hk.1.1.2.2
  have h3 := hk.1.2.1
  have hw := hk.1.2.2.1
  have h4 := hk.1.2.2.2
  have h5 := hk.2.1
  have h6 := hk.2.2
  cases h with
  | initFails h => rw [h0] at h; exact absurd h (by simp)
  | clientApiHintRaises d _ hr => rw [h1] at hr; exact absurd hr (by simp)
  | decoratedHintRaises d _ _ hr => rw [h2] at hr; exact absurd hr (by simp)
  | createWindowRaises d _ hr => rw [h3] at hr; exact absurd hr (by simp)
  | createWindowNull _ hr =>
    rw [h3] at hr
    simp only [Glfw.ret.injEq] at hr
    exact absurd hr hw
  | layerQueryThrows window2 t _ _ _ hr =>
    rw [h4] at hr
    simp [Vk.thrown] at hr
  | extensionQueryThrows window2 names2 t hl2 hr =>
    rw [h5] at hr
    simp [Vk.thrown] at hr
  | requiredExtensionsRaises window2 names2 available2 d hl2 ha hr =>
    rw [h6] at hr
    exact absurd hr (by simp)
  | createInstanceFails window2 names2 available2 required2 hk2 hr =>
    obtain ⟨rfl, rfl, rfl, rfl⟩ := hk.sameExtensions hk2
    simp
  | createSurfaceRaises window2 names2 available2 required2 d hk2 hi hr =>
    obtain ⟨rfl, rfl, rfl, rfl⟩ := hk.sameExtensions hk2
    simp [hi]
  | createSurfaceFails window2 names2 available2 required2 result surface hk2 hi hs hr =>
    obtain ⟨rfl, rfl, rfl, rfl⟩ := hk.sameExtensions hk2
    simp [hi]
  | windowCycleRaises window2 names2 available2 required2 inst surface t hb hr =>
    obtain ⟨rfl, rfl, rfl, rfl⟩ := hk.sameExtensions hb.1
    simp [surfaceBoundTrace, hb.2.1]
  | destroyWindowRaises window2 names2 available2 required2 inst surface d hb hl2 hr =>
    obtain ⟨rfl, rfl, rfl, rfl⟩ := hk.sameExtensions hb.1
    simp [surfaceBoundTrace, hb.2.1]
  | terminateRaises window2 names2 available2 required2 inst surface d hb hl2 hd hr =>
    obtain ⟨rfl, rfl, rfl, rfl⟩ := hk.sameExtensions hb.1
    simp [surfaceBoundTrace, hb.2.1]
  | success window2 names2 available2 required2 inst surface hb hl2 hd ht =>
    obtain ⟨rfl, rfl, rfl, rfl⟩ := hk.sameExtensions hb.1
    simp [surfaceBoundTrace, hb.2.1]

/-- A returning `glfwGetRequiredInstanceExtensions` call that occurs in a run was reached
with both queries answered. -/
theorem main_requiredExtensions (env : Env) (required : List String)
    (he : Event.glfwGetRequiredInstanceExtensions (.ret required) ∈ (main env).trace) :
    ∃ window names available, env.extensionsKnown window names available required := by
  have h := main_shape env
  revert he
  generalize main env = run at h
  intro he
  have hloop : ∀ window, Event.glfwGetRequiredInstanceExtensions (.ret required)
      ∉ (windowCycle env window 128 0).trace := fun window hmem => by
    have := windowCycle_setupStep env window 128 0 _ hmem
    simp [Event.setupStep] at this
  cases h <;>
    simp only [surfaceBoundTrace, extensionsListedTrace, layersCheckedTrace, hintedTrace,
      List.mem_append, List.mem_cons, List.mem_map, List.mem_singleton, List.not_mem_nil,
      nameLine, layerWarning, reduceCtorEq, or_false, false_or, and_false, exists_false,
      Event.glfwGetRequiredInstanceExtensions.injEq, Glfw.ret.injEq, or_self, hloop] at he
  case layerQueryThrows window t _ _ _ _ => cases t <;> simp [diagnostic] at he
  case extensionQueryThrows window names t _ _ => cases t <;> simp [diagnostic] at he
  case createInstanceFails window names available required2 hk hr =>
    subst he
    exact ⟨window, names, available, hk⟩
  case createSurfaceRaises window names available required2 d hk hi hr =>
    subst he
    exact ⟨window, names, available, hk⟩
  case createSurfaceFails window names available required2 res surface hk hi hs hr =>
    subst he
    exact ⟨window, names, available, hk⟩
  case windowCycleRaises window names available required2 inst surface t hb hr =>
    rcases he with rfl | he
    · exact ⟨window, names, available, hb.1⟩
    · cases t <;> simp [diagnostic] at he
  case destroyWindowRaises window names available required2 inst surface d hb hl hr =>
    subst he
    exact ⟨window, names, available, hb.1⟩
  case terminateRaises window names available required2 inst surface d hb hl hd hr =>
    subst he
    exact ⟨window, names, available, hb.1⟩
  case success window names available required2 inst surface hb hl hd ht =>
    subst he
    exact ⟨window, names, available, hb.1⟩

/-- C3: when the layer query reports `names`, every `vk::createInstance` call of the run
gets as enabled layers the requested list `["VK_LAYER_KHRONOS_validation"]` filtered, in
order, to the names among `names`; the warning lines of the run are one line per requested
layer that is not among `names`, in order; the run goes on to the extension query, and,
when that query and `glfwGetRequiredInstanceExtensions` return, to `vk::createInstance`. -/
theorem C3_layer_negotiation (env : Env) (names : List String)
    (he : Event.enumerateInstanceLayerProperties (.ret names) ∈ (main env).trace) :
    validationLayers = ["VK_LAYER_KHRONOS_validation"] ∧
      (∀ info layers extensions result handle,
        Event.createInstance info layers extensions result handle ∈ (main env).trace →
        layers = validationLayers.filter (fun layer => decide (layer ∈ names))) ∧
      (main env).trace.filter Event.isLayerWarning
        = (validationLayers.filter (fun layer => decide (layer ∉ names))).map
            (fun layer => Event.write .cerr ("Validation layer not available: " ++ layer)) ∧
      Event.enumerateInstanceExtensionProperties env.enumerateInstanceExtensionProperties
        ∈ (main env).trace ∧
      (∀ available required, env.enumerateInstanceExtensionProperties = .ret available →
        env.glfwGetRequiredInstanceExtensions = .ret required →
        Event.createInstance appInfo
            (validationLayers.filter (fun layer => decide (layer ∈ names))) required
            env.createInstance.1 env.createInstance.2 ∈ (main env).trace) := by
  obtain ⟨window, hl⟩ := main_layerQuery env names he
  obtain ⟨hwarn, hquery⟩ := main_of_layersChecked env window names hl
  refine ⟨rfl, ?_, hwarn, hquery, ?_⟩
  · intro info layers extensions result handle hci
    obtain ⟨window2, names2, available, hk, _, hlayers, _⟩ :=
      main_createInstance env info layers extensions result handle hci
    obtain ⟨_, rfl⟩ := hl.sameLayers hk.1
    exact hlayers
  · intro available required ha hr
    exact (main_of_extensionsKnown env window names available required ⟨hl, ha, hr⟩).1

/-- C3 at a run in which the driver reports no layer: one warning line, no enabled layer,
and `vk::createInstance` is called. -/
theorem C3_layer_negotiation_witness :
    (main envNoLayers).trace.filter Event.isLayerWarning
        = [.write .cerr "Validation layer not available: VK_LAYER_KHRONOS_validation"] ∧
      Event.createInstance appInfo [] ["ext_surface", "ext_platform_surface"] 0 2
        ∈ (main envNoLayers).trace :=
  have h := C3_layer_negotiation envNoLayers [] (by decide)
  ⟨h.2.2.1, h.2.2.2.2 ["VK_KHR_surface"] ["ext_surface", "ext_platform_surface"] rfl rfl⟩

/-- C4: when `glfwGetRequiredInstanceExtensions` returns `required`, then whatever the
outcome of the extension query, every `vk::createInstance` call of the run gets exactly
`required` as its extension list, and a run that reaches the
`glfwGetRequiredInstanceExtensions` call goes on to call `vk::createInstance`. -/
theorem C4_required_extensions (env : Env) (required : List String)
    (hreq : env.glfwGetRequiredInstanceExtensions = .ret required)
    (outcome : Vk (List String)) :
    (∀ info layers extensions result handle,
        Event.createInstance info layers extensions result handle
          ∈ (main { env with enumerateInstanceExtensionProperties := outcome }).trace →
        extensions = required) ∧
      (Event.glfwGetRequiredInstanceExtensions (.ret required)
          ∈ (main { env with enumerateInstanceExtensionProperties := outcome }).trace →
        ∃ layers, Event.createInstance appInfo layers required env.createInstance.1
          env.createInstance.2
          ∈ (main { env with enumerateInstanceExtensionProperties := outcome }).trace) := by
  refine ⟨fun info layers extensions result handle hci => ?_, fun hcall => ?_⟩
  · obtain ⟨window, names, available, hk, _⟩ :=
      main_createInstance _ info layers extensions result handle hci
    have h6 := hk.2.2
    change env.glfwGetRequiredInstanceExtensions = .ret extensions at h6
    rw [hreq] at h6
    simp only [Glfw.ret.injEq] at h6
    exact h6.symm
  · obtain ⟨window, names, available, hk⟩ := main_requiredExtensions _ required hcall
    exact ⟨enabledOf names, (main_of_extensionsKnown _ window names available required hk).1⟩

/-- C4 at a run in which GLFW requires `ext_surface` and `ext_platform_surface` and the
extension query reports nothing. -/
theorem C4_required_extensions_witness :
    (envOk 0).glfwGetRequiredInstanceExtensions = .ret ["ext_surface", "ext_platform_surface"] ∧
      ∃ layers, Event.createInstance appInfo layers ["ext_surface", "ext_platform_surface"]
        0 2 ∈ (main { envOk 0 with enumerateInstanceExtensionProperties := .ret [] }).trace :=
  ⟨rfl, (C4_required_extensions (envOk 0) ["ext_surface", "ext_platform_surface"] rfl
    (.ret [])).2 (by decide)⟩

/-! ## The window cycle within a run -/

theorem isCycleCall_iff (e : Event) : e.isCycleCall = true ↔ e.setupStep = some 6 := by
  cases e <;> simp [Event.isCycleCall, Event.isCloseCheck, Event.isPoll, Event.setupStep]

theorem isPoll_isCycleCall (e : Event) (h : e.isPoll = true) : e.isCycleCall = true := by
  simp [Event.isCycleCall, h]

theorem surfaceBoundTrace_not_cycleCall (env : Env) (window : Nat)
    (names available required : List String) (inst surface : Nat) :
    ∀ x ∈ surfaceBoundTrace env window names available required inst surface,
      x.isCycleCall = false := by
  simp only [surfaceBoundTrace, extensionsListedTrace, layersCheckedTrace, hintedTrace,
    List.forall_mem_append, List.forall_mem_cons, List.forall_mem_map]
  simp [Event.isCycleCall, Event.isCloseCheck, Event.isPoll, nameLine, layerWarning]

theorem isCycleCall_diagnostic (t : Thrown) : (diagnostic t).isCycleCall = false := by
  cases t <;> rfl

theorem Env.surfaceBound.facts {env : Env} {window : Nat}
    {names available required : List String} {inst surface : Nat}
    (h : env.surfaceBound window names available required inst surface) :
    env.glfwInit = true ∧ env.glfwWindowHint .GLFW_CLIENT_API = .ret () ∧
      env.glfwWindowHint .GLFW_DECORATED = .ret () ∧ env.glfwCreateWindow = .ret window ∧
      window ≠ 0 ∧ env.enumerateInstanceLayerProperties = .ret names ∧
      env.enumerateInstanceExtensionProperties = .ret available ∧
      env.glfwGetRequiredInstanceExtensions = .ret required ∧
      env.createInstance = (0, inst) ∧ env.glfwCreateWindowSurface = .ret (0, surface) :=
  ⟨h.1.1.1.1, h.1.1.1.2.1, h.1.1.1.2.2, h.1.1.2.1, h.1.1.2.2.1, h.1.1.2.2.2, h.1.2.1,
    h.1.2.2, h.2.1, h.2.2⟩

/-- The calls of the window cycle in a run: none when the cycle is not reached, otherwise
those of the cycle itself. -/
theorem main_cycle_calls (env : Env) :
    ((∀ window names available required inst surface,
          ¬ env.surfaceBound window names available required inst surface) ∧
        (main env).trace.filter Event.isCycleCall = []) ∨
      ∃ window names available required inst surface,
        env.surfaceBound window names available required inst surface ∧
        (main env).trace.filter Event.isCycleCall = (windowCycle env window 128 0).trace := by
  have h := main_shape env
  generalize main env = run at h
  have hnone : ∀ l : List Event, (∀ x ∈ l, x.isCycleCall = false) →
      l.filter Event.isCycleCall = [] := by
    intro l hl
    rw [List.filter_eq_nil_iff]
    intro x hx
    simp [hl x hx]
  have hreached : ∀ window names available required inst surface (after : List Event),
      (∀ x ∈ after, x.isCycleCall = false) →
      (surfaceBoundTrace env window names available required inst surface
        ++ (windowCycle env window 128 0).trace ++ after).filter Event.isCycleCall
        = (windowCycle env window 128 0).trace := by
    intro window names available required inst surface after hafter
    rw [List.filter_append, List.filter_append, hnone _ hafter,
      hnone _ (surfaceBoundTrace_not_cycleCall _ _ _ _ _ _ _), List.filter_eq_self.2]
    · simp
    · intro x hx
      exact (isCycleCall_iff x).2 (windowCycle_setupStep _ _ _ _ x hx)
  have hbefore : ∀ window names available required inst surface (l after : List Event),
      l ++ after = surfaceBoundTrace env window names available required inst surface →
      ∀ x ∈ l, x.isCycleCall = false := by
    intro window names available required inst surface l after hl x hx
    exact surfaceBoundTrace_not_cycleCall env window names available required inst surface x
      (by rw [← hl]; simp [hx])
  cases h with
  | windowCycleRaises window names available required inst surface t hb hr =>
    exact Or.inr ⟨window, names, available, required, inst, surface, hb,
      hreached _ _ _ _ _ _ _ (by simp [isCycleCall_diagnostic])⟩
  | destroyWindowRaises window names available required inst surface d hb hl hr =>
    exact Or.inr ⟨window, names, available, required, inst, surface, hb,
      hreached _ _ _ _ _ _ _ (by simp [Event.isCycleCall, Event.isCloseCheck, Event.isPoll])⟩
  | terminateRaises window names available required inst surface d hb hl hd hr =>
    exact Or.inr ⟨window, names, available, required, inst, surface, hb,
      hreached _ _ _ _ _ _ _ (by simp [Event.isCycleCall, Event.isCloseCheck, Event.isPoll])⟩
  | success window names available required inst surface hb hl hd ht =>
    exact Or.inr ⟨window, names, available, required, inst, surface, hb,
      hreached _ _ _ _ _ _ _ (by simp [Event.isCycleCall, Event.isCloseCheck, Event.isPoll])⟩
  | initFails h =>
    refine Or.inl ⟨fun _ _ _ _ _ _ hb => ?_, ?_⟩
    · obtain ⟨g0, _⟩ := hb.facts
      rw [g0] at h
      exact absurd h (by simp)
    · simp [List.filter, Event.isCycleCall, Event.isCloseCheck, Event.isPoll]
  | clientApiHintRaises d h hr =>
    refine Or.inl ⟨fun _ _ _ _ _ _ hb => ?_, ?_⟩
    · obtain ⟨_, g1, _⟩ := hb.facts
      rw [g1] at hr
      exact absurd hr (by simp)
    · simp [List.filter, Event.isCycleCall, Event.isCloseCheck, Event.isPoll]
  | decoratedHintRaises d h h1 hr =>
    refine Or.inl ⟨fun _ _ _ _ _ _ hb => ?_, ?_⟩
    · obtain ⟨_, _, g2, _⟩ := hb.facts
      rw [g2] at hr
      exact absurd hr (by simp)
    · simp [List.filter, Event.isCycleCall, Event.isCloseCheck, Event.isPoll]
  | createWindowRaises d h hr =>
    refine Or.inl ⟨fun _ _ _ _ _ _ hb => ?_, ?_⟩
    · obtain ⟨_, _, _, g3, _⟩ := hb.facts
      rw [g3] at hr
      exact absurd hr (by simp)
    · simp [hintedTrace, List.filter, Event.isCycleCall, Event.isCloseCheck, Event.isPoll]
  | createWindowNull h hr =>
    refine Or.inl ⟨fun _ _ _ _ _ _ hb => ?_, ?_⟩
    · obtain ⟨_, _, _, g3, gw, _⟩ := hb.facts
      rw [g3] at hr
      simp only [Glfw.ret.injEq] at hr
      exact absurd hr gw
    · simp [hintedTrace, List.filter, Event.isCycleCall, Event.isCloseCheck, Event.isPoll]
  | layerQueryThrows window t h hw hw0 hr =>
    refine Or.inl ⟨fun _ _ _ _ _ _ hb => ?_, hnone _ ?_⟩
    · obtain ⟨_, _, _, _, _, g4, _⟩ := hb.facts
      rw [g4] at hr
      simp [Vk.thrown] at hr
    · simp only [hintedTrace, List.forall_mem_append, List.forall_mem_cons,
        isCycleCall_diagnostic]
      simp [Event.isCycleCall, Event.isCloseCheck, Event.isPoll]
  | extensionQueryThrows window names t hl hr =>
    refine Or.inl ⟨fun _ _ _ _ _ _ hb => ?_, hnone _ ?_⟩
    · obtain ⟨_, _, _, _, _, _, g5, _⟩ := hb.facts
      rw [g5] at hr
      simp [Vk.thrown] at hr
    · simp only [layersCheckedTrace, hintedTrace, List.forall_mem_append,
        List.forall_mem_cons, List.forall_mem_map, isCycleCall_diagnostic]
      simp [Event.isCycleCall, Event.isCloseCheck, Event.isPoll, nameLine, layerWarning]
  | requiredExtensionsRaises window names available d hl ha hr =>
    refine Or.inl ⟨fun _ _ _ _ _ _ hb => ?_, hnone _ ?_⟩
    · obtain ⟨_, _, _, _, _, _, _, g6, _⟩ := hb.facts
      rw [g6] at hr
      exact absurd hr (by simp)
    · simp only [List.forall_mem_append, List.forall_mem_cons]
      exact ⟨hbefore window names available [] 0 0 _ _ rfl,
        by simp [Event.isCycleCall, Event.isCloseCheck, Event.isPoll]⟩
  | createInstanceFails window names available required hk hr =>
    refine Or.inl ⟨fun _ _ _ _ _ _ hb => ?_, hnone _ ?_⟩
    · obtain ⟨_, _, _, _, _, _, _, _, g7, _⟩ := hb.facts
      rw [g7] at hr
      exact absurd rfl hr
    · simp only [List.forall_mem_append, List.forall_mem_cons]
      exact ⟨hbefore window names available [] 0 0 _ _ rfl,
        by simp [Event.isCycleCall, Event.isCloseCheck, Event.isPoll]⟩
  | createSurfaceRaises window names available required d hk hi hr =>
    refine Or.inl ⟨fun _ _ _ _ _ _ hb => ?_, hnone _ ?_⟩
    · obtain ⟨_, _, _, _, _, _, _, _, _, g8⟩ := hb.facts
      rw [g8] at hr
      exact absurd hr (by simp)
    · simp only [List.forall_mem_append, List.forall_mem_cons]
      exact ⟨hbefore window names available [] 0 0 _ _ rfl,
        by simp [Event.isCycleCall, Event.isCloseCheck, Event.isPoll]⟩
  | createSurfaceFails window names available required result surface hk hi hs hr =>
    refine Or.inl ⟨fun _ _ _ _ _ _ hb => ?_, hnone _ ?_⟩
    · obtain ⟨_, _, _, _, _, _, _, _, _, g8⟩ := hb.facts
      rw [g8] at hs
      simp only [Glfw.ret.injEq, Prod.mk.injEq] at hs
      exact absurd hs.1.symm hr
    · simp only [List.forall_mem_append, List.forall_mem_cons]
      exact ⟨hbefore window names available [] 0 0 _ _ rfl,
        by simp [Event.isCycleCall, Event.isCloseCheck, Event.isPoll]⟩

theorem Env.surfaceBound.sameWindow {env : Env} {window window2 : Nat}
    {names names2 available available2 required required2 : List String}
    {inst inst2 surface surface2 : Nat}
    (h : env.surfaceBound window names available required inst surface)
    (h2 : env.surfaceBound window2 names2 available2 required2 inst2 surface2) :
    window2 = window := (h.1.sameExtensions h2.1).1

/-- The polls of a run are at most 128. -/
theorem main_polls_le (env : Env) : (main env).trace.countP Event.isPoll ≤ 128 := by
  have hle : (main env).trace.countP Event.isPoll
      ≤ ((main env).trace.filter Event.isCycleCall).countP Event.isPoll := by
    rw [List.countP_filter]
    apply le_of_eq
    apply List.countP_congr
    intro x _
    simp only [Bool.and_eq_true, iff_self_and]
    exact isPoll_isCycleCall x
  rcases main_cycle_calls env with ⟨_, h⟩ | ⟨window, _, _, _, _, _, _, h⟩
  · rw [h] at hle
    simpa using Nat.le_trans hle (Nat.zero_le _)
  · rw [h] at hle
    exact Nat.le_trans hle (windowCycle_polls_le env window 128 0)

/-- In every run the close checks are as many as the polls, or one more. -/
theorem main_checks (env : Env) :
    (main env).trace.countP Event.isPoll ≤ (main env).trace.countP Event.isCloseCheck ∧
      (main env).trace.countP Event.isCloseCheck
        ≤ (main env).trace.countP Event.isPoll + 1 := by
  have hpoll : (main env).trace.countP Event.isPoll
      = ((main env).trace.filter Event.isCycleCall).countP Event.isPoll := by
    rw [List.countP_filter]
    apply List.countP_congr
    intro x _
    simp only [Bool.and_eq_true, iff_self_and]
    exact isPoll_isCycleCall x
  have hcheck : (main env).trace.countP Event.isCloseCheck
      = ((main env).trace.filter Event.isCycleCall).countP Event.isCloseCheck := by
    rw [List.countP_filter]
    apply List.countP_congr
    intro x _
    simp only [Bool.and_eq_true, iff_self_and]
    intro hx
    simp [Event.isCycleCall, hx]
  rw [hpoll, hcheck]
  rcases main_cycle_calls env with ⟨_, h⟩ | ⟨window, _, _, _, _, _, _, h⟩
  · rw [h]
    simp
  · rw [h]
    exact windowCycle_checks env window 128 0

/-- C5: when the window cycle is reached, the close checks answer `answers i` at iteration
`i`, no call of the cycle reports an error, and `k` is the number of `false` answers before
the first `true` one, the calls of the cycle are `min 128 k` times a close check answering
`false` followed by one `glfwPollEvents`, and then, when `k < 128`, the close check
answering `true`: the cycle stops at the first `true` answer or at the cap of 128,
whichever comes first, and polls `min 128 k` times.  In every run whatsoever the polls are
at most 128 and each poll follows a close check of its own. -/
theorem C5_window_cycle (env : Env) (window : Nat) (names available required : List String)
    (inst surface : Nat) (answers : Nat → Bool) (k : Nat)
    (hreached : env.surfaceBound window names available required inst surface)
    (hanswers : ∀ i, i < 128 → env.glfwWindowShouldClose i = .ret (answers i))
    (hpolls : ∀ i, i < 128 → env.glfwPollEvents i = .ret ())
    (hfalse : ∀ i, i < k → answers i = false) (htrue : k < 128 → answers k = true) :
    (main env).trace.filter Event.isCycleCall
        = (List.replicate (min 128 k)
            [Event.glfwWindowShouldClose window (.ret false),
              Event.glfwPollEvents (.ret ())]).flatten
          ++ (if k < 128 then [Event.glfwWindowShouldClose window (.ret true)] else []) ∧
      (main env).trace.countP Event.isPoll = min 128 k ∧
      ∀ env2 : Env, (main env2).trace.countP Event.isPoll ≤ 128 ∧
        (main env2).trace.countP Event.isPoll ≤ (main env2).trace.countP Event.isCloseCheck ∧
        (main env2).trace.countP Event.isCloseCheck
          ≤ (main env2).trace.countP Event.isPoll + 1 := by
  have hcycle := windowCycle_of_answers env window k
    (fun i hik hi => ⟨by rw [hanswers i hi, hfalse i hik], hpolls i hi⟩)
    (fun hk => by rw [hanswers k hk, htrue hk]) 128 0 (Nat.zero_le _) (by omega)
  have hcalls : (main env).trace.filter Event.isCycleCall
      = (windowCycle env window 128 0).trace := by
    rcases main_cycle_calls env with ⟨hnot, _⟩ | ⟨window2, _, _, _, _, _, hb2, h⟩
    · exact absurd hreached (hnot _ _ _ _ _ _)
    · obtain rfl := hreached.sameWindow hb2
      exact h
  rw [hcycle] at hcalls
  refine ⟨by simpa using hcalls, ?_, fun env2 => ⟨main_polls_le env2, main_checks env2⟩⟩
  have hcount : (main env).trace.countP Event.isPoll
      = ((main env).trace.filter Event.isCycleCall).countP Event.isPoll := by
    rw [List.countP_filter]
    apply List.countP_congr
    intro x _
    simp only [Bool.and_eq_true, iff_self_and]
    exact isPoll_isCycleCall x
  rw [hcount, hcalls]
  have hrep : ∀ n, ((List.replicate n
      [Event.glfwWindowShouldClose window (.ret false),
        Event.glfwPollEvents (.ret ())]).flatten).countP Event.isPoll = n := by
    intro n
    induction n with
    | zero => rfl
    | succ n ih =>
      simp only [List.replicate_succ, List.flatten_cons, List.countP_append, ih]
      simp [List.countP_cons, Event.isPoll]
      omega
  simp only [List.countP_append, Nat.sub_zero, hrep]
  split <;> simp [List.countP_cons, Event.isPoll]

/-- C5 at a run in which the close check first answers `true` at iteration 10: ten polls,
not 128. -/
theorem C5_window_cycle_witness :
    (main (envOk 10)).trace.countP Event.isPoll = 10 :=
  (C5_window_cycle (envOk 10) 1 ["VK_LAYER_KHRONOS_validation"] ["VK_KHR_surface"]
    ["ext_surface", "ext_platform_surface"] 2 3 (fun i => decide (10 ≤ i)) 10
    (by decide)
    (fun _ _ => rfl) (fun _ _ => rfl) (fun i hi => by simp; omega)
    (fun _ => by decide)).2.1

end TriangleVulkan
